import Mathlib

/-!
Shallow embedding of `crates/bevy_pbr/src/material.rs` (material pipeline
specialization and render-phase assignment), together with models of the
collaborating components that the file uses but that live in other crates of
the repository (`bevy_ecs::component::Tick`, the binned/sorted render phases,
`SpecializedMeshPipelines`, `MaterialBindGroupAllocator`).  Machine integers
are `Nat` with explicit reduction mod `2^32` where wraparound matters;
fallible paths are `Option`/`Except`; a Rust `unwrap` that can panic is
modelled by an `Option` result (`none` = panic).
-/

namespace Bevy

/-- `MainEntity` identifiers. -/
abbrev Entity := Nat

/-- `AssetId<M>` for material assets. -/
abbrev MatAssetId := Nat

/-- `AssetId<Mesh>`. -/
abbrev MeshAssetId := Nat

/-- `CachedRenderPipelineId`. -/
abbrev PipelineId := Nat

/-- `DrawFunctionId`. -/
abbrev DrawFunctionId := Nat

/-- An `f32` value, carried as an uninterpreted bit pattern; no claim here
depends on IEEE-754 arithmetic. -/
abbrev F32 := Nat

/-- `MeshPipelineKey` bit set (a `u64` bitflags value in the source). -/
abbrev MeshPipelineKey := Nat

/-- `MeshVertexBufferLayoutRef`, identified structurally by an id. -/
abbrev Layout := Nat

/-- Association-list lookup, the model of `HashMap::get`. -/
def assocLookup {α β : Type} [DecidableEq α] : List (α × β) → α → Option β
  | [], _ => none
  | (k, v) :: rest, a => if k = a then some v else assocLookup rest a

/-- Association-list insert-or-replace, the model of `HashMap::insert`. -/
def assocInsert {α β : Type} [DecidableEq α] (l : List (α × β)) (a : α) (b : β) :
    List (α × β) :=
  (a, b) :: l.filter (fun p => decide (p.1 ≠ a))

/-- Association-list removal, the model of `HashMap::remove`. -/
def assocRemove {α β : Type} [DecidableEq α] (l : List (α × β)) (a : α) :
    List (α × β) :=
  l.filter (fun p => decide (p.1 ≠ a))

@[simp] theorem assocLookup_nil {α β : Type} [DecidableEq α] (a : α) :
    assocLookup ([] : List (α × β)) a = none := rfl

@[simp] theorem assocLookup_cons {α β : Type} [DecidableEq α] (k : α) (v : β)
    (l : List (α × β)) (a : α) :
    assocLookup ((k, v) :: l) a = if k = a then some v else assocLookup l a := rfl

theorem assocLookup_insert_self {α β : Type} [DecidableEq α] (l : List (α × β))
    (a : α) (b : β) : assocLookup (assocInsert l a b) a = some b := by
  simp [assocInsert]

theorem assocLookup_filter_ne {α β : Type} [DecidableEq α] (l : List (α × β))
    (a a' : α) (h : a ≠ a') :
    assocLookup (l.filter (fun p => decide (p.1 ≠ a))) a' = assocLookup l a' := by
  induction l with
  | nil => rfl
  | cons p rest ih =>
    obtain ⟨k, v⟩ := p
    by_cases hk : k = a
    · have hfilter : List.filter (fun p => decide (p.1 ≠ a)) ((k, v) :: rest)
          = List.filter (fun p => decide (p.1 ≠ a)) rest := by
        simp [List.filter_cons, hk]
      rw [hfilter, ih, assocLookup_cons, if_neg (by rw [hk]; exact h)]
    · have hfilter : List.filter (fun p => decide (p.1 ≠ a)) ((k, v) :: rest)
          = (k, v) :: List.filter (fun p => decide (p.1 ≠ a)) rest := by
        simp [List.filter_cons, hk]
      rw [hfilter, assocLookup_cons, assocLookup_cons, ih]

theorem assocLookup_insert_ne {α β : Type} [DecidableEq α] (l : List (α × β))
    (a a' : α) (b : β) (h : a ≠ a') :
    assocLookup (assocInsert l a b) a' = assocLookup l a' := by
  simp only [assocInsert, assocLookup_cons, if_neg h]
  exact assocLookup_filter_ne l a a' h

theorem assocLookup_remove_self {α β : Type} [DecidableEq α] (l : List (α × β))
    (a : α) : assocLookup (assocRemove l a) a = none := by
  induction l with
  | nil => rfl
  | cons p rest ih =>
    obtain ⟨k, v⟩ := p
    by_cases hk : k = a
    · simpa [assocRemove, List.filter_cons, hk] using ih
    · simpa [assocRemove, List.filter_cons, hk] using ih

/-- Modelled from the spec: `bevy_ecs::component::Tick` is a crate of this
repository that is not under `src/`.  Per §9 it is a fixed-width monotonic
counter with a wraparound-safe newer-than comparison; this mirrors the
wrapping-`u32` comparison, clamped to a maximal change age. -/
structure Tick where
  tick : Nat
deriving DecidableEq

/-- The `u32` modulus for tick arithmetic. -/
def TICK_MOD : Nat := 2 ^ 32

/-- `bevy_ecs`'s `CHECK_TICK_THRESHOLD`. -/
def CHECK_TICK_THRESHOLD : Nat := 518400000

/-- `bevy_ecs`'s `MAX_CHANGE_AGE = u32::MAX - (2 * CHECK_TICK_THRESHOLD - 1)`. -/
def MAX_CHANGE_AGE : Nat := (TICK_MOD - 1) - (2 * CHECK_TICK_THRESHOLD - 1)

/-- `Tick::relative_to`: wrapping `u32` subtraction. -/
def Tick.relative_to (self other : Tick) : Tick :=
  Tick.mk ((self.tick + (TICK_MOD - other.tick % TICK_MOD)) % TICK_MOD)

/-- `Tick::is_newer_than(last_run, this_run)`: age since `self` is strictly
smaller than age since `last_run`, both clamped to `MAX_CHANGE_AGE`. -/
def Tick.is_newer_than (self last_run this_run : Tick) : Bool :=
  decide (min (this_run.relative_to self).tick MAX_CHANGE_AGE
    < min (this_run.relative_to last_run).tick MAX_CHANGE_AGE)

/-- `AlphaMode` (from `bevy_render::alpha`); `Mask` carries an `f32`
threshold that the code under scrutiny never inspects. -/
inductive AlphaMode where
  | Opaque
  | Mask (threshold : F32)
  | Blend
  | Premultiplied
  | Add
  | Multiply
  | AlphaToCoverage
deriving DecidableEq

/-- `OpaqueRendererMethod` from `material.rs`. -/
inductive OpaqueRendererMethod where
  | Forward
  | Deferred
  | Auto
deriving DecidableEq

/-- `RenderPhaseType` from `material.rs`. -/
inductive RenderPhaseType where
  | Opaque
  | AlphaMask
  | Transmissive
  | Transparent
deriving DecidableEq

/-- `Msaa` (from `bevy_render::view`). -/
inductive Msaa where
  | Off
  | Sample2
  | Sample4
  | Sample8
deriving DecidableEq

/-- `Msaa::samples`. -/
def Msaa.samples : Msaa → Nat
  | .Off => 1
  | .Sample2 => 2
  | .Sample4 => 4
  | .Sample8 => 8

/-- `Msaa::from_samples`; bevy panics on unsupported sample counts, which no
key built by `MeshPipelineKey.from_msaa_samples` produces, so the default arm
is arbitrary. -/
def Msaa.from_samples (samples : Nat) : Msaa :=
  if samples = 1 then .Off
  else if samples = 2 then .Sample2
  else if samples = 4 then .Sample4
  else .Sample8

/-- Modelled from the spec: the `MeshPipelineKey` flag constants live in
`bevy_pbr`'s mesh render module, not under `src/`; §4.1 only requires a
bit-set feature key, so the flags are distinct single bits (bits 0–11) and
the MSAA sample count occupies a separate 3-bit field (bits 12–14). -/
def MeshPipelineKey.NONE : MeshPipelineKey := 0

/-- Blend-state key for `Premultiplied`/`Add` alpha modes. -/
def MeshPipelineKey.BLEND_PREMULTIPLIED_ALPHA : MeshPipelineKey := 1

/-- Blend-state key for `Blend` alpha mode. -/
def MeshPipelineKey.BLEND_ALPHA : MeshPipelineKey := 2

/-- Blend-state key for `Multiply` alpha mode. -/
def MeshPipelineKey.BLEND_MULTIPLY : MeshPipelineKey := 4

/-- Discard key for `Mask` (and `AlphaToCoverage` without MSAA). -/
def MeshPipelineKey.MAY_DISCARD : MeshPipelineKey := 8

/-- Key for `AlphaToCoverage` with MSAA on. -/
def MeshPipelineKey.BLEND_ALPHA_TO_COVERAGE : MeshPipelineKey := 16

/-- Key recording that the material reads the view transmission texture. -/
def MeshPipelineKey.READS_VIEW_TRANSMISSION_TEXTURE : MeshPipelineKey := 32

/-- Lightmap present. -/
def MeshPipelineKey.LIGHTMAPPED : MeshPipelineKey := 64

/-- Bicubic lightmap sampling. -/
def MeshPipelineKey.LIGHTMAP_BICUBIC_SAMPLING : MeshPipelineKey := 128

/-- Crossfading visibility ranges. -/
def MeshPipelineKey.VISIBILITY_RANGE_DITHER : MeshPipelineKey := 256

/-- View runs a motion-vector prepass. -/
def MeshPipelineKey.MOTION_VECTOR_PREPASS : MeshPipelineKey := 512

/-- Previous-frame skin data present. -/
def MeshPipelineKey.HAS_PREVIOUS_SKIN : MeshPipelineKey := 1024

/-- Previous-frame morph data present. -/
def MeshPipelineKey.HAS_PREVIOUS_MORPH : MeshPipelineKey := 2048

/-- Shift of the MSAA sample-count field inside the key. -/
def MSAA_SHIFT_BITS : Nat := 12

/-- `MeshPipelineKey::msaa_samples`. -/
def MeshPipelineKey.msaa_samples (key : MeshPipelineKey) : Nat :=
  2 ^ ((key >>> MSAA_SHIFT_BITS) % 8)

/-- `MeshPipelineKey::from_msaa_samples`. -/
def MeshPipelineKey.from_msaa_samples (samples : Nat) : MeshPipelineKey :=
  (Nat.log2 samples % 8) <<< MSAA_SHIFT_BITS

/-- Bitflags `insert` (`|=`). -/
def key_insert (k f : MeshPipelineKey) : MeshPipelineKey := k ||| f

/-- Bitflags `remove`: clears the bits of `f` (those bits of `k &&& f` are a
sub-mask of `k`, so subtraction clears exactly them). -/
def key_remove (k f : MeshPipelineKey) : MeshPipelineKey := k - (k &&& f)

/-- Bitflags `set(flag, value)`. -/
def key_set (k f : MeshPipelineKey) (value : Bool) : MeshPipelineKey :=
  if value then key_insert k f else key_remove k f

/-- Bitflags `contains`. -/
def key_contains (k f : MeshPipelineKey) : Bool := decide (k &&& f = f)

/-- `alpha_mode_pipeline_key` from `material.rs` (lines 578–592); the final
catch-all arm covers `AlphaMode::Opaque`. -/
def alpha_mode_pipeline_key (alpha_mode : AlphaMode) (msaa : Msaa) : MeshPipelineKey :=
  match alpha_mode with
  | .Premultiplied | .Add => MeshPipelineKey.BLEND_PREMULTIPLIED_ALPHA
  | .Blend => MeshPipelineKey.BLEND_ALPHA
  | .Multiply => MeshPipelineKey.BLEND_MULTIPLY
  | .Mask _ => MeshPipelineKey.MAY_DISCARD
  | .AlphaToCoverage =>
    match msaa with
    | .Off => MeshPipelineKey.MAY_DISCARD
    | _ => MeshPipelineKey.BLEND_ALPHA_TO_COVERAGE
  | _ => MeshPipelineKey.NONE

/-- `MaterialBindingId` (group index plus slot). -/
structure MaterialBindingId where
  group : Nat
  slot : Nat
deriving DecidableEq

/-- `MaterialProperties` from `material.rs`. -/
structure MaterialProperties where
  render_method : OpaqueRendererMethod
  alpha_mode : AlphaMode
  mesh_pipeline_key_bits : MeshPipelineKey
  depth_bias : F32
  reads_view_transmission_texture : Bool
  render_phase_type : RenderPhaseType
  draw_function_id : DrawFunctionId
  prepass_draw_function_id : Option DrawFunctionId
  deferred_draw_function_id : Option DrawFunctionId
deriving DecidableEq

/-- `PreparedMaterial<M>` (the `PhantomData` marker is dropped). -/
structure PreparedMaterial where
  binding : MaterialBindingId
  properties : MaterialProperties
deriving DecidableEq

/-- Modelled from the spec: one slot of the `MaterialBindGroupAllocator`
(§4.3), holding the extra-data fingerprint per slot that
`get_extra_data(slot)` exposes for the specialization key. -/
structure MaterialBindGroup where
  extra_data : List (Nat × Nat)
deriving DecidableEq

/-- `get_extra_data(slot)`: the fingerprint used in the specialization key. -/
def MaterialBindGroup.get_extra_data (g : MaterialBindGroup) (slot : Nat) : Nat :=
  (assocLookup g.extra_data slot).getD 0

/-- Modelled from the spec: the `MaterialBindGroupAllocator` (§4.3) is in
`material_bind_groups.rs`, not under `src/`.  `allocate` reserves a fresh
identity without GPU resources, `init`/`init_custom` attach data,
`free` releases an identity (recorded in `freed`). -/
structure BindGroupAllocator where
  next_group : Nat
  bind_groups : List (Nat × MaterialBindGroup)
  freed : List MaterialBindingId
deriving DecidableEq

/-- `allocate() -> AllocationId`: reserves a fresh identity. -/
def BindGroupAllocator.allocate (a : BindGroupAllocator) :
    MaterialBindingId × BindGroupAllocator :=
  (⟨a.next_group, 0⟩, { a with next_group := a.next_group + 1 })

/-- `init(id, data)`: attach prepared data to the slot. -/
def BindGroupAllocator.init (a : BindGroupAllocator) (id : MaterialBindingId)
    (data : Nat) : BindGroupAllocator :=
  let g := (assocLookup a.bind_groups id.group).getD (MaterialBindGroup.mk [])
  let g2 := MaterialBindGroup.mk (assocInsert g.extra_data id.slot data)
  { a with bind_groups := assocInsert a.bind_groups id.group g2 }

/-- `init_custom(id, resource, extra_data)`. -/
def BindGroupAllocator.init_custom (a : BindGroupAllocator) (id : MaterialBindingId)
    (data : Nat) : BindGroupAllocator :=
  a.init id data

/-- `get(group)`. -/
def BindGroupAllocator.get (a : BindGroupAllocator) (group : Nat) :
    Option MaterialBindGroup :=
  assocLookup a.bind_groups group

/-- `free(id)`. -/
def BindGroupAllocator.free (a : BindGroupAllocator) (id : MaterialBindingId) :
    BindGroupAllocator :=
  { a with bind_groups := assocRemove a.bind_groups id.group,
           freed := a.freed ++ [id] }

/-- `AsBindGroupError` as observed by `prepare_asset`. -/
inductive AsBindGroupError where
  | RetryNextUpdate
  | CreateBindGroupDirectly
  | other (e : Nat)
deriving DecidableEq

/-- `PrepareAssetError` (the retry variant's material payload is dropped). -/
inductive PrepareAssetError where
  | RetryNextUpdate
  | AsBindGroupError (e : Nat)
deriving DecidableEq

/-- A `Material` source asset, seen through the trait methods `prepare_asset`
calls: its alpha mode, render-method hint, depth bias, transmission flag and
the outcome of its two bind-group constructors. -/
structure Material where
  alpha_mode : AlphaMode
  opaque_render_method : OpaqueRendererMethod
  depth_bias : F32
  reads_view_transmission_texture : Bool
  unprepared_bind_group : Except AsBindGroupError Nat
  as_bind_group : Except AsBindGroupError (Nat × Nat)

/-- The read-only system params of `PreparedMaterial::prepare_asset`:
the default opaque render method and the registered draw-function ids. -/
structure PrepareEnv where
  default_opaque_render_method : OpaqueRendererMethod
  draw_opaque_pbr : DrawFunctionId
  draw_alpha_mask_pbr : DrawFunctionId
  draw_transmissive_pbr : DrawFunctionId
  draw_transparent_pbr : DrawFunctionId
  draw_opaque_prepass : Option DrawFunctionId
  draw_alpha_mask_prepass : Option DrawFunctionId
  draw_opaque_deferred : Option DrawFunctionId
  draw_alpha_mask_deferred : Option DrawFunctionId
deriving DecidableEq

/-- The mutable system params of `prepare_asset`/`unload_asset`. -/
structure PrepareState where
  bind_group_allocator : BindGroupAllocator
  render_material_bindings : List (MatAssetId × MaterialBindingId)
deriving DecidableEq

/-- `PreparedMaterial::prepare_asset` (`material.rs` lines 1176–1334).
Mutations of the system params persist even on an `Err` return, so the state
is returned alongside the result.  Both `Ok` arms of the Rust source build
the same `MaterialProperties` literal, computed once here. -/
def PreparedMaterial.prepare_asset (material : Material) (material_id : MatAssetId)
    (env : PrepareEnv) (st : PrepareState) :
    Except PrepareAssetError PreparedMaterial × PrepareState :=
  -- render_material_bindings.entry(material_id).or_insert_with(|| allocate())
  let alloc :=
    match assocLookup st.render_material_bindings material_id with
    | some b => (b, st)
    | none =>
      let fresh := st.bind_group_allocator.allocate
      (fresh.1,
       { bind_group_allocator := fresh.2,
         render_material_bindings :=
           (material_id, fresh.1) :: st.render_material_bindings })
  let material_binding_id := alloc.1
  let st := alloc.2
  let render_method :=
    match material.opaque_render_method with
    | .Forward => OpaqueRendererMethod.Forward
    | .Deferred => OpaqueRendererMethod.Deferred
    | .Auto => env.default_opaque_render_method
  let mesh_pipeline_key_bits :=
    key_set MeshPipelineKey.NONE MeshPipelineKey.READS_VIEW_TRANSMISSION_TEXTURE
      material.reads_view_transmission_texture
  let reads_view_transmission_texture :=
    key_contains mesh_pipeline_key_bits MeshPipelineKey.READS_VIEW_TRANSMISSION_TEXTURE
  let render_phase_type :=
    match material.alpha_mode with
    | .Blend | .Premultiplied | .Add | .Multiply => RenderPhaseType.Transparent
    | .Opaque =>
      if reads_view_transmission_texture then RenderPhaseType.Transmissive
      else RenderPhaseType.Opaque
    | .AlphaToCoverage =>
      if reads_view_transmission_texture then RenderPhaseType.Transmissive
      else RenderPhaseType.Opaque
    | .Mask _ =>
      if reads_view_transmission_texture then RenderPhaseType.Transmissive
      else RenderPhaseType.AlphaMask
  let draw_function_id :=
    match render_phase_type with
    | .Opaque => env.draw_opaque_pbr
    | .AlphaMask => env.draw_alpha_mask_pbr
    | .Transmissive => env.draw_transmissive_pbr
    | .Transparent => env.draw_transparent_pbr
  let prepass_draw_function_id :=
    match render_phase_type with
    | .Opaque => env.draw_opaque_prepass
    | .AlphaMask => env.draw_alpha_mask_prepass
    | _ => none
  let deferred_draw_function_id :=
    match render_phase_type with
    | .Opaque => env.draw_opaque_deferred
    | .AlphaMask => env.draw_alpha_mask_deferred
    | _ => none
  let properties : MaterialProperties :=
    { render_method := render_method,
      alpha_mode := material.alpha_mode,
      mesh_pipeline_key_bits := mesh_pipeline_key_bits,
      depth_bias := material.depth_bias,
      reads_view_transmission_texture := reads_view_transmission_texture,
      render_phase_type := render_phase_type,
      draw_function_id := draw_function_id,
      prepass_draw_function_id := prepass_draw_function_id,
      deferred_draw_function_id := deferred_draw_function_id }
  match material.unprepared_bind_group with
  | .ok unprepared =>
    let st2 :=
      { st with
        bind_group_allocator := st.bind_group_allocator.init material_binding_id unprepared }
    (.ok ⟨material_binding_id, properties⟩, st2)
  | .error .RetryNextUpdate => (.error .RetryNextUpdate, st)
  | .error .CreateBindGroupDirectly =>
    match material.as_bind_group with
    | .ok prepared =>
      let st2 :=
        { st with
          bind_group_allocator := st.bind_group_allocator.init_custom material_binding_id prepared.2 }
      (.ok ⟨material_binding_id, properties⟩, st2)
    | .error .RetryNextUpdate => (.error .RetryNextUpdate, st)
    | .error .CreateBindGroupDirectly => (.error (.AsBindGroupError 0), st)
    | .error (.other e) => (.error (.AsBindGroupError e), st)
  | .error (.other e) => (.error (.AsBindGroupError e), st)

/-- `PreparedMaterial::unload_asset` (`material.rs` lines 1336–1352). -/
def PreparedMaterial.unload_asset (source_asset : MatAssetId) (st : PrepareState) :
    PrepareState :=
  match assocLookup st.render_material_bindings source_asset with
  | none => st
  | some material_binding_id =>
    { bind_group_allocator := st.bind_group_allocator.free material_binding_id,
      render_material_bindings :=
        assocRemove st.render_material_bindings source_asset }

/-- The spec's §4.6 phase mapping table, written from the spec's words for
comparison with the code: `Blend|Premultiplied|Add|Multiply → Transparent`;
else if transmission-reading → `Transmissive`; `Opaque|AlphaToCoverage →
Opaque`; `Mask(_) → AlphaMask`. -/
def spec_phase_classification (mode : AlphaMode) (transmission_reading : Bool) :
    RenderPhaseType :=
  match mode with
  | .Blend | .Premultiplied | .Add | .Multiply => RenderPhaseType.Transparent
  | _ =>
    if transmission_reading then RenderPhaseType.Transmissive
    else
      match mode with
      | .Opaque | .AlphaToCoverage => RenderPhaseType.Opaque
      | _ => RenderPhaseType.AlphaMask

/-- `MaterialPipelineKey<M>`: the mesh key plus the material's bind-group
data fingerprint (`M::Data`, whose equality is structural per §4.1). -/
structure MaterialPipelineKey where
  mesh_key : MeshPipelineKey
  bind_group_data : Nat
deriving DecidableEq

/-- A fragment state of a `RenderPipelineDescriptor`. -/
structure FragmentState where
  shader : Nat
  shader_defs : List Nat
deriving DecidableEq

/-- The parts of `RenderPipelineDescriptor` that
`MaterialPipeline::specialize` touches. -/
structure RenderPipelineDescriptor where
  vertex_shader : Nat
  vertex_shader_defs : List Nat
  fragment : Option FragmentState
  layout : List Nat
deriving DecidableEq

/-- The numeric token standing for the `"BINDLESS"` shader define. -/
def BINDLESS_DEF : Nat := 1

/-- `Vec::insert(n, x)` on the descriptor's layout vector (Rust panics when
the vector is shorter than `n`; the model appends at the end instead, a case
no claim exercises because mesh descriptors carry the two mesh layouts). -/
def listInsertAt (n : Nat) (x : Nat) : List Nat → List Nat
  | [] => [x]
  | y :: ys =>
    match n with
    | 0 => x :: y :: ys
    | Nat.succ m => y :: listInsertAt m x ys

/-- `MaterialPipeline<M>` (`material.rs` lines 430–440), with the external
collaborators it calls as function-valued fields: `mesh_pipeline.specialize`
(the base mesh pipeline, another module of `bevy_pbr`) and `M::specialize`
(user material code), both returning `Result` like the source. -/
structure MaterialPipeline where
  mesh_pipeline_specialize : MeshPipelineKey → Layout → Except Nat RenderPipelineDescriptor
  material_layout : Nat
  vertex_shader : Option Nat
  fragment_shader : Option Nat
  bindless : Bool
  material_specialize :
    RenderPipelineDescriptor → MaterialPipelineKey → Layout → Except Nat RenderPipelineDescriptor

/-- Tail of `MaterialPipeline::specialize` after the shader overrides: layout
insertion at index 2, `M::specialize`, and the bindless defines. -/
def MaterialPipeline.specializeRest (self : MaterialPipeline)
    (key : MaterialPipelineKey) (layout : Layout) (d : RenderPipelineDescriptor) :
    Option (Except Nat RenderPipelineDescriptor) :=
  let d2 := { d with layout := listInsertAt 2 self.material_layout d.layout }
  match self.material_specialize d2 key layout with
  | .error e => some (.error e)
  | .ok d3 =>
    let d4 :=
      if self.bindless then
        { d3 with
          vertex_shader_defs := d3.vertex_shader_defs ++ [BINDLESS_DEF],
          fragment := d3.fragment.map
            (fun f => { f with shader_defs := f.shader_defs ++ [BINDLESS_DEF] }) }
      else d3
    some (.ok d4)

/-- `MaterialPipeline::specialize` (`material.rs` lines 461–488).  The result
is `none` exactly when the source panics: the
`descriptor.fragment.as_mut().unwrap()` taken when a custom fragment shader
is set finds no fragment state. -/
def MaterialPipeline.specialize (self : MaterialPipeline)
    (key : MaterialPipelineKey) (layout : Layout) :
    Option (Except Nat RenderPipelineDescriptor) :=
  match self.mesh_pipeline_specialize key.mesh_key layout with
  | .error e => some (.error e)
  | .ok d0 =>
    let d1 :=
      match self.vertex_shader with
      | some vs => { d0 with vertex_shader := vs }
      | none => d0
    match self.fragment_shader with
    | some fs =>
      match d1.fragment with
      | none => none
      | some f =>
        self.specializeRest key layout { d1 with fragment := some { f with shader := fs } }
    | none => self.specializeRest key layout d1

/-- Modelled from the spec: `SpecializedMeshPipelines` (the Pipeline Variant
Cache of §4.4) lives in `bevy_render`, not under `src/`.  `specialize`
returns the existing handle when the (layout, key) pair was seen before;
otherwise it builds the descriptor, submits a compilation request (recorded
in `requests`) and stores a fresh handle.  Specialization failures propagate
as a typed error without touching the cache. -/
structure Pipelines where
  cache : List ((Layout × MaterialPipelineKey) × PipelineId)
  next_id : Nat
  requests : List PipelineId
deriving DecidableEq

/-- `SpecializedMeshPipelines::specialize`; `none` means the inner
`MaterialPipeline::specialize` panicked. -/
def Pipelines.specialize (p : Pipelines) (mp : MaterialPipeline)
    (key : MaterialPipelineKey) (layout : Layout) :
    Option (Except Nat (PipelineId × Pipelines)) :=
  match assocLookup p.cache (layout, key) with
  | some id => some (.ok (id, p))
  | none =>
    match mp.specialize key layout with
    | none => none
    | some (.error e) => some (.error e)
    | some (.ok _) =>
      some (.ok (p.next_id,
        { cache := ((layout, key), p.next_id) :: p.cache,
          next_id := p.next_id + 1,
          requests := p.requests ++ [p.next_id] }))

/-- `RenderMesh` as used here: the precomputed key bits and the vertex
buffer layout. -/
structure RenderMesh where
  key_bits : MeshPipelineKey
  layout : Layout
deriving DecidableEq

/-- `RenderMeshQueueData` (from `render_mesh_instances.render_mesh_queue_data`):
mesh asset, instance flags, translation, batchability and lightmap slab. -/
structure RenderMeshQueueData where
  mesh_asset_id : MeshAssetId
  has_previous_skin : Bool
  has_previous_morph : Bool
  translation : Nat
  should_batch : Bool
  lightmap_slab_index : Option Nat
deriving DecidableEq

/-- One entry of `RenderLightmaps`. -/
structure LightmapInfo where
  bicubic_sampling : Bool
deriving DecidableEq

/-- One view of the `views` query: its `MainEntity`, its
`retained_view_entity` (the key of the phase maps), the view-space
rangefinder (`view.rangefinder3d().distance_translation`, uninterpreted) and
the visible `(render entity, main entity)` pairs that
`RenderVisibleEntities::iter::<Mesh3d>` yields. -/
structure ViewInfo where
  view_entity : Entity
  retained_view_entity : Nat
  rangefinder : Nat → F32
  visible : List (Entity × Entity)

/-- The read-only inputs of `specialize_material_meshes` (its mutable state
is `SpecState`). -/
structure SpecializeEnv where
  render_meshes : List (MeshAssetId × RenderMesh)
  render_materials : List (MatAssetId × PreparedMaterial)
  render_mesh_instances : List (Entity × RenderMeshQueueData)
  render_material_instances : List (Entity × MatAssetId)
  render_lightmaps : List (Entity × LightmapInfo)
  render_visibility_ranges : List Entity
  material_bind_group_allocator : BindGroupAllocator
  opaque_phases_present : List Nat
  alpha_mask_phases_present : List Nat
  transmissive_phases_present : List Nat
  transparent_phases_present : List Nat
  views : List ViewInfo
  view_key_cache : List (Entity × MeshPipelineKey)
  entity_specialization_ticks : List (Entity × Tick)
  view_specialization_ticks : List (Entity × Tick)
  pipeline : MaterialPipeline
  this_run : Tick

/-- The state `specialize_material_meshes` mutates: the
`SpecializedMaterialPipelineCache` map `(view, entity) → (tick, pipeline)`,
the pipeline variant cache, and the `error!` log. -/
structure SpecState where
  cache : List ((Entity × Entity) × (Tick × PipelineId))
  pipelines : Pipelines
  log : List Nat
deriving DecidableEq

/-- The dirty check of `specialize_material_meshes` (lines 823–826):
`last_specialized_tick.is_none_or(|tick| view_tick.is_newer_than(tick, this_run)
|| entity_tick.is_newer_than(tick, this_run))`. -/
def needs_respecialization (view_tick entity_tick : Tick)
    (last_specialized_tick : Option Tick) (this_run : Tick) : Bool :=
  match last_specialized_tick with
  | none => true
  | some tick =>
    view_tick.is_newer_than tick this_run || entity_tick.is_newer_than tick this_run

/-- The `MaterialPipelineKey` built by `specialize_material_meshes` (lines
849–891) for one visible entity, given the resolved mesh, material, mesh
instance and extra-data fingerprint. -/
def material_pipeline_key_for (env : SpecializeEnv) (view_key : MeshPipelineKey)
    (visible_entity : Entity) (mesh : RenderMesh) (material : PreparedMaterial)
    (mesh_instance : RenderMeshQueueData) (extra_data : Nat) : MaterialPipelineKey :=
  let mesh_pipeline_key_bits :=
    key_insert material.properties.mesh_pipeline_key_bits
      (alpha_mode_pipeline_key material.properties.alpha_mode
        (Msaa.from_samples (MeshPipelineKey.msaa_samples view_key)))
  let mesh_key := view_key ||| mesh.key_bits ||| mesh_pipeline_key_bits
  let mesh_key :=
    match assocLookup env.render_lightmaps visible_entity with
    | some lightmap =>
      let k := key_insert mesh_key MeshPipelineKey.LIGHTMAPPED
      if lightmap.bicubic_sampling then
        key_insert k MeshPipelineKey.LIGHTMAP_BICUBIC_SAMPLING
      else k
    | none => mesh_key
  let mesh_key :=
    if env.render_visibility_ranges.contains visible_entity then
      key_insert mesh_key MeshPipelineKey.VISIBILITY_RANGE_DITHER
    else mesh_key
  let mesh_key :=
    if key_contains view_key MeshPipelineKey.MOTION_VECTOR_PREPASS then
      let k :=
        if mesh_instance.has_previous_skin then
          key_insert mesh_key MeshPipelineKey.HAS_PREVIOUS_SKIN
        else mesh_key
      if mesh_instance.has_previous_morph then
        key_insert k MeshPipelineKey.HAS_PREVIOUS_MORPH
      else k
    else mesh_key
  { mesh_key := mesh_key, bind_group_data := extra_data }

/-- What one iteration of the inner loop of `specialize_material_meshes` did,
as an observation on top of the state transition. -/
inductive SpecializeTrace where
  | skipped_fresh
  | skipped_missing
  | errored (key : MaterialPipelineKey) (e : Nat)
  | specialized (key : MaterialPipelineKey) (id : PipelineId)
deriving DecidableEq

/-- Whether the iteration built a key and consulted the pipeline cache. -/
def SpecializeTrace.consulted : SpecializeTrace → Bool
  | .skipped_fresh => false
  | .skipped_missing => false
  | .errored _ _ => true
  | .specialized _ _ => true

/-- One iteration of the inner loop of `specialize_material_meshes` (lines
817–905) for `visible_entity` under `view_entity`/`view_key`.  `none` models
the panics of the two tick-lookup `unwrap`s and of the fragment-state
`unwrap` inside `MaterialPipeline::specialize`; every `continue` of the
source returns the state unchanged with a trace saying why. -/
def specializeEntityStep (env : SpecializeEnv) (view_entity : Entity)
    (view_key : MeshPipelineKey) (st : SpecState) (visible_entity : Entity) :
    Option (SpecState × SpecializeTrace) :=
  match assocLookup env.view_specialization_ticks view_entity with
  | none => none
  | some view_tick =>
  match assocLookup env.entity_specialization_ticks visible_entity with
  | none => none
  | some entity_tick =>
  let last_specialized_tick :=
    (assocLookup st.cache (view_entity, visible_entity)).map Prod.fst
  if needs_respecialization view_tick entity_tick last_specialized_tick env.this_run
      = false then
    some (st, .skipped_fresh)
  else
  match assocLookup env.render_material_instances visible_entity with
  | none => some (st, .skipped_missing)
  | some material_asset_id =>
  match assocLookup env.render_mesh_instances visible_entity with
  | none => some (st, .skipped_missing)
  | some mesh_instance =>
  match assocLookup env.render_meshes mesh_instance.mesh_asset_id with
  | none => some (st, .skipped_missing)
  | some mesh =>
  match assocLookup env.render_materials material_asset_id with
  | none => some (st, .skipped_missing)
  | some material =>
  match env.material_bind_group_allocator.get material.binding.group with
  | none => some (st, .skipped_missing)
  | some material_bind_group =>
  let key := material_pipeline_key_for env view_key visible_entity mesh material
      mesh_instance (material_bind_group.get_extra_data material.binding.slot)
  match Pipelines.specialize st.pipelines env.pipeline key mesh.layout with
  | none => none
  | some (.error e) => some ({ st with log := st.log ++ [e] }, .errored key e)
  | some (.ok result) =>
    let st2 :=
      { st with
        pipelines := result.2,
        cache := assocInsert st.cache (view_entity, visible_entity)
          (env.this_run, result.1) }
    some (st2, .specialized key result.1)

/-- The inner loop of `specialize_material_meshes` over the visible entities
of one view (`for (_, visible_entity) in visible_entities.iter::<Mesh3d>()`). -/
def specializeEntitiesLoop (env : SpecializeEnv) (view_entity : Entity)
    (view_key : MeshPipelineKey) : SpecState → List (Entity × Entity) → Option SpecState
  | st, [] => some st
  | st, p :: rest =>
    match specializeEntityStep env view_entity view_key st p.2 with
    | none => none
    | some (st1, _) => specializeEntitiesLoop env view_entity view_key st1 rest

/-- One iteration of the outer loop of `specialize_material_meshes` (lines
804–816): skip the view when none of the four phases is present for its
retained view entity, or when it has no cached view key. -/
def specializeViewStep (env : SpecializeEnv) (st : SpecState) (view : ViewInfo) :
    Option SpecState :=
  if !(env.transparent_phases_present.contains view.retained_view_entity)
      && !(env.opaque_phases_present.contains view.retained_view_entity)
      && !(env.alpha_mask_phases_present.contains view.retained_view_entity)
      && !(env.transmissive_phases_present.contains view.retained_view_entity) then
    some st
  else
    match assocLookup env.view_key_cache view.view_entity with
    | none => some st
    | some view_key => specializeEntitiesLoop env view.view_entity view_key st view.visible

/-- The outer loop of `specialize_material_meshes` over the views. -/
def specializeViewsLoop (env : SpecializeEnv) : SpecState → List ViewInfo → Option SpecState
  | st, [] => some st
  | st, v :: rest =>
    match specializeViewStep env st v with
    | none => none
    | some st1 => specializeViewsLoop env st1 rest

/-- `specialize_material_meshes` (`material.rs` lines 772–907). -/
def specialize_material_meshes (env : SpecializeEnv) (st : SpecState) :
    Option SpecState :=
  specializeViewsLoop env st env.views

/-- `Opaque3dBatchSetKey` (from `bevy_core_pipeline::core_3d`). -/
structure Opaque3dBatchSetKey where
  pipeline : PipelineId
  draw_function : DrawFunctionId
  material_bind_group_index : Option Nat
  vertex_slab : Nat
  index_slab : Option Nat
  lightmap_slab : Option Nat
deriving DecidableEq

/-- `OpaqueNoLightmap3dBatchSetKey` (used for the alpha-mask phase). -/
structure OpaqueNoLightmap3dBatchSetKey where
  draw_function : DrawFunctionId
  pipeline : PipelineId
  material_bind_group_index : Option Nat
  vertex_slab : Nat
  index_slab : Option Nat
deriving DecidableEq

/-- One item of a binned phase: batch-set key, bin key (the mesh asset id),
the (render entity, main entity) pair, the change tick it was inserted or
validated with, and its batchability. -/
structure BinnedItem (BSK : Type) where
  batch_set_key : BSK
  bin_key : MeshAssetId
  entity : Entity × Entity
  change_tick : Tick
  batchable : Bool
deriving DecidableEq

/-- Modelled from the spec: `BinnedRenderPhase` lives in `bevy_render`, not
under `src/`.  Per §4.6 a binned phase supports an idempotent
`validate_cached_entity` check ("skip if already correctly binned for the
current tick"), insertion, and a sweep that removes "any previously-binned
entity not re-validated/re-inserted this frame".  `validated` is the set of
main entities re-validated/re-inserted this frame (empty at frame start). -/
structure BinnedPhase (BSK : Type) where
  items : List (BinnedItem BSK)
  validated : List Entity
deriving DecidableEq

/-- `validate_cached_entity(entity, current_change_tick)`: succeeds (and
marks the entity re-validated) iff the entity is already binned with that
change tick. -/
def BinnedPhase.validate_cached_entity {BSK : Type} [DecidableEq BSK]
    (p : BinnedPhase BSK) (e : Entity) (t : Tick) : Bool × BinnedPhase BSK :=
  if p.items.any (fun it => decide (it.entity.2 = e ∧ it.change_tick = t)) then
    (true, { p with validated := e :: p.validated })
  else
    (false, p)

/-- `add(batch_set_key, bin_key, entity, phase_type, change_tick)`: (re)bins
the entity, replacing any previous item it had, and marks it validated. -/
def BinnedPhase.add {BSK : Type} [DecidableEq BSK] (p : BinnedPhase BSK)
    (bsk : BSK) (bk : MeshAssetId) (ent : Entity × Entity) (batchable : Bool)
    (t : Tick) : BinnedPhase BSK :=
  { items := { batch_set_key := bsk, bin_key := bk, entity := ent,
               change_tick := t, batchable := batchable }
      :: p.items.filter (fun it => decide (it.entity.2 ≠ ent.2)),
    validated := ent.2 :: p.validated }

/-- `sweep_old_entities`: drops every item whose entity was not
re-validated/re-inserted this frame, and resets the per-frame mark set. -/
def BinnedPhase.sweep_old_entities {BSK : Type} (p : BinnedPhase BSK) :
    BinnedPhase BSK :=
  { items := p.items.filter (fun it => p.validated.contains it.entity.2),
    validated := [] }

/-- One item of a sorted phase (`Transmissive3d`/`Transparent3d`): entity,
draw function, pipeline, (uninterpreted) sort distance, the constant batch
range `0..1`, and whether the mesh is indexed. -/
structure SortedItem where
  entity : Entity × Entity
  draw_function : DrawFunctionId
  pipeline : PipelineId
  distance : F32
  batch_range : Nat × Nat
  indexed : Bool
deriving DecidableEq

/-- Stand-in for `f32` addition in `distance_translation(..) + depth_bias`;
no claim depends on its numeric behavior. -/
def f32_add (a b : F32) : F32 := a + b

/-- The read-only inputs of `queue_material_meshes` (the phase maps it
mutates are `QueueState`). -/
structure QueueEnv where
  render_materials : List (MatAssetId × PreparedMaterial)
  render_mesh_instances : List (Entity × RenderMeshQueueData)
  render_material_instances : List (Entity × MatAssetId)
  mesh_allocator : List (MeshAssetId × (Option Nat × Option Nat))
  specialized_material_pipeline_cache : List ((Entity × Entity) × (Tick × PipelineId))
  views : List ViewInfo

/-- The four per-view phase containers of one view while it is queued. -/
structure ViewPhases where
  opaque_phase : BinnedPhase Opaque3dBatchSetKey
  alpha_mask_phase : BinnedPhase OpaqueNoLightmap3dBatchSetKey
  transmissive : List SortedItem
  transparent : List SortedItem
deriving DecidableEq

/-- The phase maps (`ViewBinnedRenderPhases` / `ViewSortedRenderPhases`),
keyed by retained view entity. -/
structure QueueState where
  opaque_phases : List (Nat × BinnedPhase Opaque3dBatchSetKey)
  alpha_mask_phases : List (Nat × BinnedPhase OpaqueNoLightmap3dBatchSetKey)
  transmissive : List (Nat × List SortedItem)
  transparent : List (Nat × List SortedItem)
deriving DecidableEq

/-- One iteration of the inner loop of `queue_material_meshes` (lines
943–1049) for one `(render_entity, visible_entity)` pair: skip without a
cache entry; skip (validating) when already correctly binned; skip on
missing upstream data; otherwise insert into the phase selected by the
material's `render_phase_type`, excluding Deferred materials from the
forward opaque phase. -/
def queueEntityStep (env : QueueEnv) (view : ViewInfo) (ph : ViewPhases)
    (pair : Entity × Entity) : ViewPhases :=
  let render_entity := pair.1
  let visible_entity := pair.2
  match assocLookup env.specialized_material_pipeline_cache
      (view.view_entity, visible_entity) with
  | none => ph
  | some cached =>
    let current_change_tick := cached.1
    let pipeline_id := cached.2
    let vOp := ph.opaque_phase.validate_cached_entity visible_entity current_change_tick
    let ph1 := { ph with opaque_phase := vOp.2 }
    if vOp.1 then ph1 else
    let vAm := ph1.alpha_mask_phase.validate_cached_entity visible_entity current_change_tick
    let ph2 := { ph1 with alpha_mask_phase := vAm.2 }
    if vAm.1 then ph2 else
    match assocLookup env.render_material_instances visible_entity with
    | none => ph2
    | some material_asset_id =>
    match assocLookup env.render_mesh_instances visible_entity with
    | none => ph2
    | some mesh_instance =>
    match assocLookup env.render_materials material_asset_id with
    | none => ph2
    | some material =>
      let slabs := (assocLookup env.mesh_allocator mesh_instance.mesh_asset_id).getD
          (none, none)
      let vertex_slab := slabs.1
      let index_slab := slabs.2
      match material.properties.render_phase_type with
      | .Transmissive =>
        let distance := f32_add (view.rangefinder mesh_instance.translation)
            material.properties.depth_bias
        { ph2 with transmissive := ph2.transmissive ++
            [{ entity := (render_entity, visible_entity),
               draw_function := material.properties.draw_function_id,
               pipeline := pipeline_id,
               distance := distance,
               batch_range := (0, 1),
               indexed := index_slab.isSome }] }
      | .Opaque =>
        if material.properties.render_method = OpaqueRendererMethod.Deferred then ph2
        else
          let batch_set_key : Opaque3dBatchSetKey :=
            { pipeline := pipeline_id,
              draw_function := material.properties.draw_function_id,
              material_bind_group_index := some material.binding.group,
              vertex_slab := vertex_slab.getD 0,
              index_slab := index_slab,
              lightmap_slab := mesh_instance.lightmap_slab_index }
          let op2 := ph2.opaque_phase.add batch_set_key mesh_instance.mesh_asset_id
              (render_entity, visible_entity) mesh_instance.should_batch current_change_tick
          { ph2 with opaque_phase := op2 }
      | .AlphaMask =>
        let batch_set_key : OpaqueNoLightmap3dBatchSetKey :=
          { draw_function := material.properties.draw_function_id,
            pipeline := pipeline_id,
            material_bind_group_index := some material.binding.group,
            vertex_slab := vertex_slab.getD 0,
            index_slab := index_slab }
        let am2 := ph2.alpha_mask_phase.add batch_set_key mesh_instance.mesh_asset_id
            (render_entity, visible_entity) mesh_instance.should_batch current_change_tick
        { ph2 with alpha_mask_phase := am2 }
      | .Transparent =>
        let distance := f32_add (view.rangefinder mesh_instance.translation)
            material.properties.depth_bias
        { ph2 with transparent := ph2.transparent ++
            [{ entity := (render_entity, visible_entity),
               draw_function := material.properties.draw_function_id,
               pipeline := pipeline_id,
               distance := distance,
               batch_range := (0, 1),
               indexed := index_slab.isSome }] }

/-- The inner loop of `queue_material_meshes` over one view's visible
entities. -/
def queueEntitiesLoop (env : QueueEnv) (view : ViewInfo) :
    ViewPhases → List (Entity × Entity) → ViewPhases
  | ph, [] => ph
  | ph, p :: rest => queueEntitiesLoop env view (queueEntityStep env view ph p) rest

/-- One iteration of the outer loop of `queue_material_meshes` (lines
926–1054): the view is processed only when ALL FOUR phase maps contain its
retained view entity (the four-way `let (Some, Some, Some, Some) = .. else
continue`); after the entity loop the two binned phases sweep old
entities. -/
def queueViewStep (env : QueueEnv) (st : QueueState) (view : ViewInfo) : QueueState :=
  match assocLookup st.opaque_phases view.retained_view_entity,
        assocLookup st.alpha_mask_phases view.retained_view_entity,
        assocLookup st.transmissive view.retained_view_entity,
        assocLookup st.transparent view.retained_view_entity with
  | some op, some am, some tm, some tp =>
    let ph := queueEntitiesLoop env view ⟨op, am, tm, tp⟩ view.visible
    { opaque_phases := assocInsert st.opaque_phases view.retained_view_entity
        ph.opaque_phase.sweep_old_entities,
      alpha_mask_phases := assocInsert st.alpha_mask_phases view.retained_view_entity
        ph.alpha_mask_phase.sweep_old_entities,
      transmissive := assocInsert st.transmissive view.retained_view_entity
        ph.transmissive,
      transparent := assocInsert st.transparent view.retained_view_entity
        ph.transparent }
  | _, _, _, _ => st

/-- The outer loop of `queue_material_meshes` over the views. -/
def queueViewsLoop (env : QueueEnv) : QueueState → List ViewInfo → QueueState
  | st, [] => st
  | st, v :: rest => queueViewsLoop env (queueViewStep env st v) rest

/-- `queue_material_meshes` (`material.rs` lines 911–1055). -/
def queue_material_meshes (env : QueueEnv) (st : QueueState) : QueueState :=
  queueViewsLoop env st env.views

/-- Whether every upstream datum `specialize_material_meshes` resolves for a
visible entity is present: material instance, mesh instance, mesh render
data, prepared material and bind-group allocation (the five `let Some .. else
continue` lookups of lines 830–847). -/
def specialize_upstream_present (env : SpecializeEnv) (ve : Entity) : Bool :=
  match assocLookup env.render_material_instances ve with
  | none => false
  | some material_asset_id =>
    match assocLookup env.render_mesh_instances ve with
    | none => false
    | some mesh_instance =>
      match assocLookup env.render_meshes mesh_instance.mesh_asset_id with
      | none => false
      | some _ =>
        match assocLookup env.render_materials material_asset_id with
        | none => false
        | some material =>
          (env.material_bind_group_allocator.get material.binding.group).isSome

/-- Whether the three upstream lookups of `queue_material_meshes` (lines
958–967) succeed for a visible entity. -/
def queue_upstream_present (env : QueueEnv) (ve : Entity) : Bool :=
  match assocLookup env.render_material_instances ve with
  | none => false
  | some material_asset_id =>
    match assocLookup env.render_mesh_instances ve with
    | none => false
    | some _ => (assocLookup env.render_materials material_asset_id).isSome

/-- The prepared material `queue_material_meshes` resolves for a visible
entity (material instance, then prepared material). -/
def queue_resolved_material (env : QueueEnv) (ve : Entity) : Option PreparedMaterial :=
  match assocLookup env.render_material_instances ve with
  | none => none
  | some material_asset_id => assocLookup env.render_materials material_asset_id

/-- After a successful `Pipelines.specialize`, the same (key, layout) query
returns the same handle from the cache without a new request. -/
theorem pipelines_specialize_idempotent (p : Pipelines) (mp : MaterialPipeline)
    (key : MaterialPipelineKey) (layout : Layout) (id : PipelineId) (p2 : Pipelines)
    (h : Pipelines.specialize p mp key layout = some (.ok (id, p2))) :
    Pipelines.specialize p2 mp key layout = some (.ok (id, p2)) := by
  unfold Pipelines.specialize at h ⊢
  cases hc : assocLookup p.cache (layout, key) with
  | some id0 =>
    rw [hc] at h
    simp only [Option.some.injEq, Except.ok.injEq, Prod.mk.injEq] at h
    obtain ⟨h1, h2⟩ := h
    subst h1
    subst h2
    rw [hc]
  | none =>
    rw [hc] at h
    cases hs : mp.specialize key layout with
    | none => rw [hs] at h; exact absurd h (by simp)
    | some r =>
      rw [hs] at h
      cases r with
      | error e => exact absurd h (by simp)
      | ok d =>
        simp only [Option.some.injEq, Except.ok.injEq, Prod.mk.injEq] at h
        obtain ⟨h1, h2⟩ := h
        subst h1
        rw [← h2]
        simp

/-- A base render-pipeline descriptor produced by the concrete mesh-pipeline
fixture below. -/
def descFix : RenderPipelineDescriptor :=
  { vertex_shader := 0, vertex_shader_defs := [],
    fragment := some { shader := 0, shader_defs := [] }, layout := [10, 11] }

/-- A concrete material pipeline whose collaborators always succeed. -/
def pipelineFix : MaterialPipeline :=
  { mesh_pipeline_specialize := fun _ _ => .ok descFix,
    material_layout := 2,
    vertex_shader := none,
    fragment_shader := none,
    bindless := false,
    material_specialize := fun d _ _ => .ok d }

/-- A pipeline whose mesh specialization always rejects with error 42. -/
def pipelineErrFix : MaterialPipeline :=
  { pipelineFix with mesh_pipeline_specialize := fun _ _ => .error 42 }

/-- A prepared material: forward, alpha mode `Opaque`, no transmission. -/
def preparedFix : PreparedMaterial :=
  { binding := { group := 0, slot := 0 },
    properties :=
      { render_method := .Forward,
        alpha_mode := .Opaque,
        mesh_pipeline_key_bits := MeshPipelineKey.NONE,
        depth_bias := 0,
        reads_view_transmission_texture := false,
        render_phase_type := .Opaque,
        draw_function_id := 0,
        prepass_draw_function_id := none,
        deferred_draw_function_id := none } }

/-- A concrete render mesh. -/
def meshFix : RenderMesh := { key_bits := 0, layout := 0 }

/-- A concrete mesh instance for entity 5, mesh asset 3. -/
def meshInstanceFix : RenderMeshQueueData :=
  { mesh_asset_id := 3, has_previous_skin := false, has_previous_morph := false,
    translation := 0, should_batch := true, lightmap_slab_index := none }

/-- An allocator holding one bind group (group 0, slot 0, fingerprint 0). -/
def allocatorFix : BindGroupAllocator :=
  { next_group := 1, bind_groups := [(0, MaterialBindGroup.mk [(0, 0)])], freed := [] }

/-- A view (main entity 0, retained id 0) seeing entity 5 via render entity 9. -/
def viewFix : ViewInfo :=
  { view_entity := 0, retained_view_entity := 0, rangefinder := fun _ => 0,
    visible := [(9, 5)] }

/-- An empty pipeline variant cache. -/
def pipelines0Fix : Pipelines := { cache := [], next_id := 0, requests := [] }

/-- A fully-resolvable specialization environment: entity 5 carries material
asset 7 and mesh asset 3, all four phases are present for the single view. -/
def specEnvFix : SpecializeEnv :=
  { render_meshes := [(3, meshFix)],
    render_materials := [(7, preparedFix)],
    render_mesh_instances := [(5, meshInstanceFix)],
    render_material_instances := [(5, 7)],
    render_lightmaps := [],
    render_visibility_ranges := [],
    material_bind_group_allocator := allocatorFix,
    opaque_phases_present := [0],
    alpha_mask_phases_present := [0],
    transmissive_phases_present := [0],
    transparent_phases_present := [0],
    views := [viewFix],
    view_key_cache := [(0, 0)],
    entity_specialization_ticks := [(5, Tick.mk 2)],
    view_specialization_ticks := [(0, Tick.mk 1)],
    pipeline := pipelineFix,
    this_run := Tick.mk 3 }

/-- The empty mutable state of the specialization pass. -/
def specStateFix : SpecState := { cache := [], pipelines := pipelines0Fix, log := [] }

/-- `specEnvFix` with entity 5's material instance missing. -/
def specEnvC2 : SpecializeEnv := { specEnvFix with render_material_instances := [] }

/-- `specEnvFix` with the always-rejecting pipeline. -/
def specEnvErrFix : SpecializeEnv := { specEnvFix with pipeline := pipelineErrFix }

/-- The specialization key `specEnvFix` builds for entity 5. -/
def keyFix : MaterialPipelineKey := { mesh_key := 0, bind_group_data := 0 }

/-- The pipeline variant cache after specializing `keyFix` once. -/
def pipelinesAfterFix : Pipelines :=
  { cache := [((0, keyFix), 0)], next_id := 1, requests := [0] }

/-- The state after `specEnvFix` specializes entity 5 from `specStateFix`. -/
def specStateAfterFix : SpecState :=
  { cache := [((0, 5), (Tick.mk 3, 0))], pipelines := pipelinesAfterFix, log := [] }

/-- C10: `alpha_mode_pipeline_key` returns the identical key bits
(`BLEND_PREMULTIPLIED_ALPHA`) for `AlphaMode::Premultiplied` and
`AlphaMode::Add` under every `Msaa` setting; two prepared materials identical
except for choosing the two modes produce equal specialization keys; and
querying the pipeline variant cache again with an equal key returns the same
pipeline handle with no new compilation request, so the two drawables share
one pipeline variant. -/
theorem c10_premultiplied_add_share_pipeline :
    (∀ msaa : Msaa, alpha_mode_pipeline_key AlphaMode.Premultiplied msaa
        = alpha_mode_pipeline_key AlphaMode.Add msaa)
  ∧ (∀ (env : SpecializeEnv) (view_key : MeshPipelineKey) (ve : Entity)
        (mesh : RenderMesh) (m1 m2 : PreparedMaterial) (mi : RenderMeshQueueData)
        (x : Nat),
        m1.properties.alpha_mode = AlphaMode.Premultiplied →
        m2.properties.alpha_mode = AlphaMode.Add →
        m1.properties.mesh_pipeline_key_bits = m2.properties.mesh_pipeline_key_bits →
        material_pipeline_key_for env view_key ve mesh m1 mi x
          = material_pipeline_key_for env view_key ve mesh m2 mi x)
  ∧ (∀ (p : Pipelines) (mp : MaterialPipeline) (key : MaterialPipelineKey)
        (layout : Layout) (id : PipelineId) (p2 : Pipelines),
        Pipelines.specialize p mp key layout = some (.ok (id, p2)) →
        Pipelines.specialize p2 mp key layout = some (.ok (id, p2))) := by
  refine ⟨fun _ => rfl, ?_, pipelines_specialize_idempotent⟩
  intro env vk ve mesh m1 m2 mi x h1 h2 h3
  simp only [material_pipeline_key_for, h1, h2, h3, alpha_mode_pipeline_key]

/-- A prepared material with alpha mode `Premultiplied`. -/
def premultFix : PreparedMaterial :=
  let props := { preparedFix.properties with
    alpha_mode := AlphaMode.Premultiplied,
    render_phase_type := RenderPhaseType.Transparent }
  { preparedFix with properties := props }

/-- A prepared material with alpha mode `Add`, otherwise as `premultFix`. -/
def addFix : PreparedMaterial :=
  let props := { premultFix.properties with alpha_mode := AlphaMode.Add }
  { premultFix with properties := props }

/-- Witness for C10 at a concrete input. -/
theorem c10_witness :
    material_pipeline_key_for specEnvFix 0 5 meshFix premultFix meshInstanceFix 0
      = material_pipeline_key_for specEnvFix 0 5 meshFix addFix meshInstanceFix 0
    ∧ Pipelines.specialize pipelinesAfterFix pipelineFix keyFix 0
      = some (.ok (0, pipelinesAfterFix)) :=
  ⟨c10_premultiplied_add_share_pipeline.2.1 specEnvFix 0 5 meshFix premultFix addFix
      meshInstanceFix 0 rfl rfl rfl,
   c10_premultiplied_add_share_pipeline.2.2 pipelines0Fix pipelineFix keyFix 0 0
      pipelinesAfterFix rfl⟩

/-- C3: re-running the per-entity step of `specialize_material_meshes` for a
pair whose view tick and entity tick are not newer than the stored cache tick
returns the state unchanged: the cached pipeline id stays identical and no
pipeline specialization or compilation request is issued. -/
theorem c3_unchanged_ticks_idempotent (env : SpecializeEnv) (v : Entity)
    (vk : MeshPipelineKey) (st : SpecState) (ve : Entity) (vt et t : Tick)
    (pid : PipelineId)
    (hv : assocLookup env.view_specialization_ticks v = some vt)
    (he : assocLookup env.entity_specialization_ticks ve = some et)
    (hc : assocLookup st.cache (v, ve) = some (t, pid))
    (hvt : vt.is_newer_than t env.this_run = false)
    (het : et.is_newer_than t env.this_run = false) :
    specializeEntityStep env v vk st ve = some (st, SpecializeTrace.skipped_fresh) := by
  unfold specializeEntityStep
  rw [hv, he, hc]
  simp [needs_respecialization, hvt, het]

/-- The C3 witness state: a cache entry for the pair stored at tick 2. -/
def specStateC3 : SpecState :=
  { cache := [((0, 5), (Tick.mk 2, 77))], pipelines := pipelines0Fix, log := [] }

/-- Witness for C3 at a concrete input. -/
theorem c3_witness :
    specializeEntityStep specEnvFix 0 0 specStateC3 5
      = some (specStateC3, SpecializeTrace.skipped_fresh) :=
  c3_unchanged_ticks_idempotent specEnvFix 0 0 specStateC3 5 (Tick.mk 1) (Tick.mk 2)
    (Tick.mk 2) 77 rfl rfl rfl (by decide) (by decide)

/-- C5: when pipeline specialization returns an error for the key built for a
drawable, the per-entity step logs the error and leaves both the
`SpecializedMaterialPipelineCache` and the pipeline variant cache untouched
(no entry inserted or modified for the failing pair), does not panic (it
returns `some`), and the loop carries on with the remaining drawables. -/
theorem c5_specialization_error_logged_and_skipped (env : SpecializeEnv)
    (v : Entity) (vk : MeshPipelineKey) (st : SpecState) (ve : Entity)
    (vt et : Tick) (maid : MatAssetId) (mi : RenderMeshQueueData)
    (mesh : RenderMesh) (mat : PreparedMaterial) (bg : MaterialBindGroup)
    (err : Nat) (re : Entity) (rest : List (Entity × Entity))
    (hv : assocLookup env.view_specialization_ticks v = some vt)
    (he : assocLookup env.entity_specialization_ticks ve = some et)
    (hneeds : needs_respecialization vt et
        ((assocLookup st.cache (v, ve)).map Prod.fst) env.this_run = true)
    (hmi : assocLookup env.render_material_instances ve = some maid)
    (hqd : assocLookup env.render_mesh_instances ve = some mi)
    (hmesh : assocLookup env.render_meshes mi.mesh_asset_id = some mesh)
    (hmat : assocLookup env.render_materials maid = some mat)
    (hbg : env.material_bind_group_allocator.get mat.binding.group = some bg)
    (herr : Pipelines.specialize st.pipelines env.pipeline
        (material_pipeline_key_for env vk ve mesh mat mi
          (bg.get_extra_data mat.binding.slot)) mesh.layout
        = some (.error err)) :
    specializeEntityStep env v vk st ve
        = some ({ st with log := st.log ++ [err] },
            SpecializeTrace.errored
              (material_pipeline_key_for env vk ve mesh mat mi
                (bg.get_extra_data mat.binding.slot)) err)
    ∧ ({ st with log := st.log ++ [err] } : SpecState).cache = st.cache
    ∧ ({ st with log := st.log ++ [err] } : SpecState).pipelines = st.pipelines
    ∧ specializeEntitiesLoop env v vk st ((re, ve) :: rest)
        = specializeEntitiesLoop env v vk { st with log := st.log ++ [err] } rest := by
  have hstep : specializeEntityStep env v vk st ve
      = some ({ st with log := st.log ++ [err] },
          SpecializeTrace.errored
            (material_pipeline_key_for env vk ve mesh mat mi
              (bg.get_extra_data mat.binding.slot)) err) := by
    unfold specializeEntityStep
    rw [hv, he]
    simp [hneeds, hmi, hqd, hmesh, hmat, hbg, herr]
  refine ⟨hstep, rfl, rfl, ?_⟩
  have hcons : specializeEntitiesLoop env v vk st ((re, ve) :: rest)
      = match specializeEntityStep env v vk st ve with
        | none => none
        | some (st1, _) => specializeEntitiesLoop env v vk st1 rest := rfl
  rw [hcons, hstep]

/-- Witness for C5 at a concrete input, built on the always-rejecting
pipeline fixture. -/
theorem c5_witness :
    specializeEntityStep specEnvErrFix 0 0 specStateFix 5
        = some ({ specStateFix with log := specStateFix.log ++ [42] },
            SpecializeTrace.errored
              (material_pipeline_key_for specEnvErrFix 0 5 meshFix preparedFix
                meshInstanceFix
                ((MaterialBindGroup.mk [(0, 0)]).get_extra_data
                  preparedFix.binding.slot)) 42)
    ∧ ({ specStateFix with log := specStateFix.log ++ [42] } : SpecState).cache
        = specStateFix.cache
    ∧ ({ specStateFix with log := specStateFix.log ++ [42] } : SpecState).pipelines
        = specStateFix.pipelines
    ∧ specializeEntitiesLoop specEnvErrFix 0 0 specStateFix [(9, 5)]
        = specializeEntitiesLoop specEnvErrFix 0 0
            { specStateFix with log := specStateFix.log ++ [42] } [] :=
  c5_specialization_error_logged_and_skipped specEnvErrFix 0 0 specStateFix 5
    (Tick.mk 1) (Tick.mk 2) 7 meshInstanceFix meshFix preparedFix
    (MaterialBindGroup.mk [(0, 0)]) 42 9 [] rfl rfl rfl rfl rfl rfl rfl rfl rfl

/-- C2 counterexample: in a state with no cache entry for the pair (so the
claim's dirty condition holds) but with the entity's material instance
missing, the step builds no key and consults no pipeline cache — it skips —
refuting the claimed "if and only if" at this concrete input. -/
theorem c2_counterexample :
    specializeEntityStep specEnvC2 0 0 specStateFix 5
        = some (specStateFix, SpecializeTrace.skipped_missing)
    ∧ SpecializeTrace.consulted SpecializeTrace.skipped_missing = false
    ∧ assocLookup specStateFix.cache (0, 5) = none :=
  ⟨rfl, rfl, rfl⟩

/-- C2 (amended): a pair is re-specialized — a new key built and the
pipeline cache consulted — if and only if the dirty condition holds (no
cache entry, or the view or entity tick is newer than the stored tick
relative to the current run) AND all upstream data for the drawable
(material instance, mesh instance, mesh, prepared material, bind group) is
present. -/
theorem c2_amended_respecialization_iff (env : SpecializeEnv) (v : Entity)
    (vk : MeshPipelineKey) (st : SpecState) (ve : Entity) (vt et : Tick)
    (st2 : SpecState) (tr : SpecializeTrace)
    (hv : assocLookup env.view_specialization_ticks v = some vt)
    (he : assocLookup env.entity_specialization_ticks ve = some et)
    (hstep : specializeEntityStep env v vk st ve = some (st2, tr)) :
    tr.consulted = true ↔
      (needs_respecialization vt et ((assocLookup st.cache (v, ve)).map Prod.fst)
          env.this_run = true
        ∧ specialize_upstream_present env ve = true) := by
  cases hneeds : needs_respecialization vt et
      ((assocLookup st.cache (v, ve)).map Prod.fst) env.this_run with
  | false =>
    have hcomp : specializeEntityStep env v vk st ve
        = some (st, SpecializeTrace.skipped_fresh) := by
      unfold specializeEntityStep
      rw [hv, he]
      simp [hneeds]
    rw [hcomp] at hstep
    simp only [Option.some.injEq, Prod.mk.injEq] at hstep
    obtain ⟨hst2, htr⟩ := hstep
    subst htr
    simp [SpecializeTrace.consulted]
  | true =>
    cases h1 : assocLookup env.render_material_instances ve with
    | none =>
      have hcomp : specializeEntityStep env v vk st ve
          = some (st, SpecializeTrace.skipped_missing) := by
        unfold specializeEntityStep
        rw [hv, he]
        simp [hneeds, h1]
      rw [hcomp] at hstep
      simp only [Option.some.injEq, Prod.mk.injEq] at hstep
      obtain ⟨hst2, htr⟩ := hstep
      subst htr
      simp [SpecializeTrace.consulted, specialize_upstream_present, h1]
    | some maid =>
      cases h2 : assocLookup env.render_mesh_instances ve with
      | none =>
        have hcomp : specializeEntityStep env v vk st ve
            = some (st, SpecializeTrace.skipped_missing) := by
          unfold specializeEntityStep
          rw [hv, he]
          simp [hneeds, h1, h2]
        rw [hcomp] at hstep
        simp only [Option.some.injEq, Prod.mk.injEq] at hstep
        obtain ⟨hst2, htr⟩ := hstep
        subst htr
        simp [SpecializeTrace.consulted, specialize_upstream_present, h1, h2]
      | some mi =>
        cases h3 : assocLookup env.render_meshes mi.mesh_asset_id with
        | none =>
          have hcomp : specializeEntityStep env v vk st ve
              = some (st, SpecializeTrace.skipped_missing) := by
            unfold specializeEntityStep
            rw [hv, he]
            simp [hneeds, h1, h2, h3]
          rw [hcomp] at hstep
          simp only [Option.some.injEq, Prod.mk.injEq] at hstep
          obtain ⟨hst2, htr⟩ := hstep
          subst htr
          simp [SpecializeTrace.consulted, specialize_upstream_present, h1, h2, h3]
        | some mesh =>
          cases h4 : assocLookup env.render_materials maid with
          | none =>
            have hcomp : specializeEntityStep env v vk st ve
                = some (st, SpecializeTrace.skipped_missing) := by
              unfold specializeEntityStep
              rw [hv, he]
              simp [hneeds, h1, h2, h3, h4]
            rw [hcomp] at hstep
            simp only [Option.some.injEq, Prod.mk.injEq] at hstep
            obtain ⟨hst2, htr⟩ := hstep
            subst htr
            simp [SpecializeTrace.consulted, specialize_upstream_present,
              h1, h2, h3, h4]
          | some mat =>
            cases h5 : env.material_bind_group_allocator.get mat.binding.group with
            | none =>
              have hcomp : specializeEntityStep env v vk st ve
                  = some (st, SpecializeTrace.skipped_missing) := by
                unfold specializeEntityStep
                rw [hv, he]
                simp [hneeds, h1, h2, h3, h4, h5]
              rw [hcomp] at hstep
              simp only [Option.some.injEq, Prod.mk.injEq] at hstep
              obtain ⟨hst2, htr⟩ := hstep
              subst htr
              simp [SpecializeTrace.consulted, specialize_upstream_present,
                h1, h2, h3, h4, h5]
            | some bg =>
              cases h6 : Pipelines.specialize st.pipelines env.pipeline
                  (material_pipeline_key_for env vk ve mesh mat mi
                    (bg.get_extra_data mat.binding.slot)) mesh.layout with
              | none =>
                have hcomp : specializeEntityStep env v vk st ve = none := by
                  unfold specializeEntityStep
                  rw [hv, he]
                  simp [hneeds, h1, h2, h3, h4, h5, h6]
                rw [hcomp] at hstep
                exact absurd hstep (by simp)
              | some r =>
                cases r with
                | error e =>
                  have hcomp : specializeEntityStep env v vk st ve
                      = some ({ st with log := st.log ++ [e] },
                          SpecializeTrace.errored
                            (material_pipeline_key_for env vk ve mesh mat mi
                              (bg.get_extra_data mat.binding.slot)) e) := by
                    unfold specializeEntityStep
                    rw [hv, he]
                    simp [hneeds, h1, h2, h3, h4, h5, h6]
                  rw [hcomp] at hstep
                  simp only [Option.some.injEq, Prod.mk.injEq] at hstep
                  obtain ⟨hst2, htr⟩ := hstep
                  subst htr
                  simp [SpecializeTrace.consulted, specialize_upstream_present,
                    h1, h2, h3, h4, h5]
                | ok pr =>
                  have hcomp : specializeEntityStep env v vk st ve
                      = some ({ st with
                            pipelines := pr.2,
                            cache := assocInsert st.cache (v, ve)
                              (env.this_run, pr.1) },
                          SpecializeTrace.specialized
                            (material_pipeline_key_for env vk ve mesh mat mi
                              (bg.get_extra_data mat.binding.slot)) pr.1) := by
                    unfold specializeEntityStep
                    rw [hv, he]
                    simp [hneeds, h1, h2, h3, h4, h5, h6]
                  rw [hcomp] at hstep
                  simp only [Option.some.injEq, Prod.mk.injEq] at hstep
                  obtain ⟨hst2, htr⟩ := hstep
                  subst htr
                  simp [SpecializeTrace.consulted, specialize_upstream_present,
                    h1, h2, h3, h4, h5]

/-- Witness for the amended C2 at a concrete input where the step
specializes. -/
theorem c2_witness :
    (SpecializeTrace.specialized keyFix 0).consulted = true ↔
      (needs_respecialization (Tick.mk 1) (Tick.mk 2)
          ((assocLookup specStateFix.cache (0, 5)).map Prod.fst)
          specEnvFix.this_run = true
        ∧ specialize_upstream_present specEnvFix 5 = true) :=
  c2_amended_respecialization_iff specEnvFix 0 0 specStateFix 5 (Tick.mk 1)
    (Tick.mk 2) specStateAfterFix (SpecializeTrace.specialized keyFix 0)
    rfl rfl rfl

/-- A step whose entity has missing upstream data returns the state
unchanged, with a trace that consulted nothing. -/
theorem specializeEntityStep_missing (env : SpecializeEnv) (v : Entity)
    (vk : MeshPipelineKey) (st : SpecState) (ve : Entity) (vt et : Tick)
    (hv : assocLookup env.view_specialization_ticks v = some vt)
    (he : assocLookup env.entity_specialization_ticks ve = some et)
    (hmiss : specialize_upstream_present env ve = false) :
    ∃ tr, specializeEntityStep env v vk st ve = some (st, tr)
      ∧ tr.consulted = false := by
  cases hneeds : needs_respecialization vt et
      ((assocLookup st.cache (v, ve)).map Prod.fst) env.this_run with
  | false =>
    refine ⟨.skipped_fresh, ?_, rfl⟩
    unfold specializeEntityStep
    rw [hv, he]
    simp [hneeds]
  | true =>
    unfold specialize_upstream_present at hmiss
    cases h1 : assocLookup env.render_material_instances ve with
    | none =>
      refine ⟨.skipped_missing, ?_, rfl⟩
      unfold specializeEntityStep
      rw [hv, he]
      simp [hneeds, h1]
    | some maid =>
      simp only [h1] at hmiss
      cases h2 : assocLookup env.render_mesh_instances ve with
      | none =>
        refine ⟨.skipped_missing, ?_, rfl⟩
        unfold specializeEntityStep
        rw [hv, he]
        simp [hneeds, h1, h2]
      | some mi =>
        simp only [h2] at hmiss
        cases h3 : assocLookup env.render_meshes mi.mesh_asset_id with
        | none =>
          refine ⟨.skipped_missing, ?_, rfl⟩
          unfold specializeEntityStep
          rw [hv, he]
          simp [hneeds, h1, h2, h3]
        | some mesh =>
          simp only [h3] at hmiss
          cases h4 : assocLookup env.render_materials maid with
          | none =>
            refine ⟨.skipped_missing, ?_, rfl⟩
            unfold specializeEntityStep
            rw [hv, he]
            simp [hneeds, h1, h2, h3, h4]
          | some mat =>
            simp only [h4] at hmiss
            cases h5 : env.material_bind_group_allocator.get mat.binding.group with
            | none =>
              refine ⟨.skipped_missing, ?_, rfl⟩
              unfold specializeEntityStep
              rw [hv, he]
              simp [hneeds, h1, h2, h3, h4, h5]
            | some bg =>
              simp only [h5] at hmiss
              simp at hmiss

/-- A successful step either leaves the specialization cache untouched or
inserts only at its own (view, entity) key. -/
theorem specializeEntityStep_cache_cases (env : SpecializeEnv) (v : Entity)
    (vk : MeshPipelineKey) (st : SpecState) (e : Entity) (st2 : SpecState)
    (tr : SpecializeTrace)
    (hstep : specializeEntityStep env v vk st e = some (st2, tr)) :
    st2.cache = st.cache
    ∨ ∃ pid, st2.cache = assocInsert st.cache (v, e) (env.this_run, pid) := by
  simp only [specializeEntityStep] at hstep
  repeat' split at hstep
  any_goals exact Option.noConfusion hstep
  all_goals
    simp only [Option.some.injEq, Prod.mk.injEq] at hstep
  all_goals obtain ⟨hst2, htr⟩ := hstep
  all_goals subst hst2
  all_goals first
    | exact Or.inl rfl
    | exact Or.inr ⟨_, rfl⟩

/-- Unfolding equation for one cons cell of the specialize entity loop. -/
theorem specializeEntitiesLoop_cons (env : SpecializeEnv) (v : Entity)
    (vk : MeshPipelineKey) (st : SpecState) (p : Entity × Entity)
    (rest : List (Entity × Entity)) :
    specializeEntitiesLoop env v vk st (p :: rest)
      = match specializeEntityStep env v vk st p.2 with
        | none => none
        | some (st1, _) => specializeEntitiesLoop env v vk st1 rest := rfl

/-- Dropping a missing-data drawable from the visible list does not change
the run of the specialize entity loop. -/
theorem specializeEntitiesLoop_skips_missing (env : SpecializeEnv) (v : Entity)
    (vk : MeshPipelineKey) (ve : Entity) (vt et : Tick) (re : Entity)
    (hv : assocLookup env.view_specialization_ticks v = some vt)
    (he : assocLookup env.entity_specialization_ticks ve = some et)
    (hmiss : specialize_upstream_present env ve = false) :
    ∀ (l1 : List (Entity × Entity)) (st : SpecState) (l2 : List (Entity × Entity)),
      specializeEntitiesLoop env v vk st (l1 ++ (re, ve) :: l2)
        = specializeEntitiesLoop env v vk st (l1 ++ l2) := by
  intro l1
  induction l1 with
  | nil =>
    intro st l2
    obtain ⟨tr, hstep, -⟩ :=
      specializeEntityStep_missing env v vk st ve vt et hv he hmiss
    rw [List.nil_append, List.nil_append, specializeEntitiesLoop_cons, hstep]
  | cons p rest ih =>
    intro st l2
    rw [List.cons_append, List.cons_append, specializeEntitiesLoop_cons,
      specializeEntitiesLoop_cons]
    cases hstep : specializeEntityStep env v vk st p.2 with
    | none => rfl
    | some r =>
      obtain ⟨st1, tr⟩ := r
      exact ih st1 l2

/-- Across a whole run of the specialize entity loop, the cache entry of a
missing-data pair is left unchanged: other drawables only insert at their own
keys, and the missing-data drawable's own iterations do not touch the
state. -/
theorem specializeEntitiesLoop_cache_preserved (env : SpecializeEnv) (v : Entity)
    (vk : MeshPipelineKey) (ve : Entity) (vt et : Tick)
    (hv : assocLookup env.view_specialization_ticks v = some vt)
    (he : assocLookup env.entity_specialization_ticks ve = some et)
    (hmiss : specialize_upstream_present env ve = false) :
    ∀ (l : List (Entity × Entity)) (st st2 : SpecState),
      specializeEntitiesLoop env v vk st l = some st2 →
      assocLookup st2.cache (v, ve) = assocLookup st.cache (v, ve) := by
  intro l
  induction l with
  | nil =>
    intro st st2 h
    rw [← Option.some.inj h]
  | cons p rest ih =>
    intro st st2 h
    rw [specializeEntitiesLoop_cons] at h
    cases hstep : specializeEntityStep env v vk st p.2 with
    | none => rw [hstep] at h; exact absurd h (Option.noConfusion)
    | some r =>
      obtain ⟨st1, tr⟩ := r
      rw [hstep] at h
      have htail : specializeEntitiesLoop env v vk st1 rest = some st2 := h
      by_cases hpe : p.2 = ve
      · rw [hpe] at hstep
        obtain ⟨tr2, hstep2, -⟩ :=
          specializeEntityStep_missing env v vk st ve vt et hv he hmiss
        rw [hstep2] at hstep
        simp only [Option.some.injEq, Prod.mk.injEq] at hstep
        obtain ⟨hst1, -⟩ := hstep
        rw [ih st1 st2 htail, ← hst1]
      · have hcase := specializeEntityStep_cache_cases env v vk st p.2 st1 tr hstep
        have hone : assocLookup st1.cache (v, ve) = assocLookup st.cache (v, ve) := by
          rcases hcase with hsame | ⟨pid, hins⟩
          · rw [hsame]
          · rw [hins]
            exact assocLookup_insert_ne st.cache (v, p.2) (v, ve) (env.this_run, pid)
              (by simp [hpe])
        rw [ih st1 st2 htail, hone]

/-- A queue iteration for a drawable whose upstream data is missing and that
has no binned item leaves the view's phases exactly as they were. -/
theorem queueEntityStep_missing (env : QueueEnv) (view : ViewInfo)
    (ph : ViewPhases) (re ve : Entity)
    (hmiss : queue_upstream_present env ve = false)
    (hop : ∀ it ∈ ph.opaque_phase.items, it.entity.2 ≠ ve)
    (ham : ∀ it ∈ ph.alpha_mask_phase.items, it.entity.2 ≠ ve) :
    queueEntityStep env view ph (re, ve) = ph := by
  unfold queueEntityStep
  dsimp only
  cases hc : assocLookup env.specialized_material_pipeline_cache
      (view.view_entity, ve) with
  | none => rfl
  | some cached =>
    have hvop : ph.opaque_phase.validate_cached_entity ve cached.1
        = (false, ph.opaque_phase) := by
      unfold BinnedPhase.validate_cached_entity
      rw [if_neg]
      intro hany
      rw [List.any_eq_true] at hany
      obtain ⟨it, hit, hdec⟩ := hany
      rw [decide_eq_true_eq] at hdec
      exact hop it hit hdec.1
    have hvam : ph.alpha_mask_phase.validate_cached_entity ve cached.1
        = (false, ph.alpha_mask_phase) := by
      unfold BinnedPhase.validate_cached_entity
      rw [if_neg]
      intro hany
      rw [List.any_eq_true] at hany
      obtain ⟨it, hit, hdec⟩ := hany
      rw [decide_eq_true_eq] at hdec
      exact ham it hit hdec.1
    unfold queue_upstream_present at hmiss
    cases h1 : assocLookup env.render_material_instances ve with
    | none => simp [hvop, hvam, h1]
    | some maid =>
      simp only [h1] at hmiss
      cases h2 : assocLookup env.render_mesh_instances ve with
      | none => simp [hvop, hvam, h1, h2]
      | some mi =>
        simp only [h2] at hmiss
        cases h3 : assocLookup env.render_materials maid with
        | none => simp [hvop, hvam, h1, h2, h3]
        | some mat => rw [h3] at hmiss; simp at hmiss

/-- C4: a drawable with missing upstream data is the only one skipped for
the frame — (i) its specialize iteration returns the state unchanged without
consulting the pipeline cache; (ii) the specialize loop over the view's other
drawables behaves exactly as if the drawable were absent; (iii) a full run of
the loop leaves the pair's existing `SpecializedMaterialPipelineCache` entry
unchanged, so it is retried next frame; and (iv) its queue iteration leaves
the view's four phases exactly as they were while the loop continues. -/
theorem c4_missing_data_skips_only_that_drawable :
    (∀ (env : SpecializeEnv) (v : Entity) (vk : MeshPipelineKey) (st : SpecState)
        (ve : Entity) (vt et : Tick),
        assocLookup env.view_specialization_ticks v = some vt →
        assocLookup env.entity_specialization_ticks ve = some et →
        specialize_upstream_present env ve = false →
        ∃ tr, specializeEntityStep env v vk st ve = some (st, tr)
          ∧ tr.consulted = false)
  ∧ (∀ (env : SpecializeEnv) (v : Entity) (vk : MeshPipelineKey) (ve : Entity)
        (vt et : Tick) (re : Entity),
        assocLookup env.view_specialization_ticks v = some vt →
        assocLookup env.entity_specialization_ticks ve = some et →
        specialize_upstream_present env ve = false →
        ∀ l1 st l2, specializeEntitiesLoop env v vk st (l1 ++ (re, ve) :: l2)
          = specializeEntitiesLoop env v vk st (l1 ++ l2))
  ∧ (∀ (env : SpecializeEnv) (v : Entity) (vk : MeshPipelineKey) (ve : Entity)
        (vt et : Tick),
        assocLookup env.view_specialization_ticks v = some vt →
        assocLookup env.entity_specialization_ticks ve = some et →
        specialize_upstream_present env ve = false →
        ∀ l st st2, specializeEntitiesLoop env v vk st l = some st2 →
          assocLookup st2.cache (v, ve) = assocLookup st.cache (v, ve))
  ∧ (∀ (env : QueueEnv) (view : ViewInfo) (ph : ViewPhases) (re ve : Entity),
        queue_upstream_present env ve = false →
        (∀ it ∈ ph.opaque_phase.items, it.entity.2 ≠ ve) →
        (∀ it ∈ ph.alpha_mask_phase.items, it.entity.2 ≠ ve) →
        queueEntityStep env view ph (re, ve) = ph) :=
  ⟨fun env v vk st ve vt et hv he hmiss =>
      specializeEntityStep_missing env v vk st ve vt et hv he hmiss,
   fun env v vk ve vt et re hv he hmiss =>
      specializeEntitiesLoop_skips_missing env v vk ve vt et re hv he hmiss,
   fun env v vk ve vt et hv he hmiss =>
      specializeEntitiesLoop_cache_preserved env v vk ve vt et hv he hmiss,
   fun env view ph re ve hmiss hop ham =>
      queueEntityStep_missing env view ph re ve hmiss hop ham⟩

/-- A queue environment with entity 5's upstream data missing. -/
def queueEnvC4 : QueueEnv :=
  { render_materials := [],
    render_mesh_instances := [],
    render_material_instances := [],
    mesh_allocator := [],
    specialized_material_pipeline_cache := [((0, 5), (Tick.mk 3, 11))],
    views := [viewFix] }

/-- Empty per-view phases. -/
def viewPhasesEmpty : ViewPhases :=
  { opaque_phase := ⟨[], []⟩, alpha_mask_phase := ⟨[], []⟩,
    transmissive := [], transparent := [] }

/-- Witness for C4 at a concrete input (entity 5's data missing in
`specEnvC2`/`queueEnvC4`). -/
theorem c4_witness :
    (∃ tr, specializeEntityStep specEnvC2 0 0 specStateFix 5
        = some (specStateFix, tr) ∧ tr.consulted = false)
    ∧ specializeEntitiesLoop specEnvC2 0 0 specStateFix ([] ++ (9, 5) :: [])
        = specializeEntitiesLoop specEnvC2 0 0 specStateFix ([] ++ [])
    ∧ assocLookup specStateFix.cache (0, 5) = assocLookup specStateFix.cache (0, 5)
    ∧ queueEntityStep queueEnvC4 viewFix viewPhasesEmpty (9, 5) = viewPhasesEmpty :=
  ⟨c4_missing_data_skips_only_that_drawable.1 specEnvC2 0 0 specStateFix 5
      (Tick.mk 1) (Tick.mk 2) rfl rfl rfl,
   c4_missing_data_skips_only_that_drawable.2.1 specEnvC2 0 0 5
      (Tick.mk 1) (Tick.mk 2) 9 rfl rfl rfl [] specStateFix [],
   c4_missing_data_skips_only_that_drawable.2.2.1 specEnvC2 0 0 5
      (Tick.mk 1) (Tick.mk 2) rfl rfl rfl [(9, 5)] specStateFix specStateFix rfl,
   c4_missing_data_skips_only_that_drawable.2.2.2 queueEnvC4 viewFix
      viewPhasesEmpty 9 5 rfl (by intro it hit; cases hit) (by intro it hit; cases hit)⟩

/-- The tail of `MaterialPipeline::specialize` never panics. -/
theorem materialPipeline_specializeRest_isSome (mp : MaterialPipeline)
    (key : MaterialPipelineKey) (layout : Layout) (d : RenderPipelineDescriptor) :
    (mp.specializeRest key layout d).isSome = true := by
  unfold MaterialPipeline.specializeRest
  dsimp only
  cases mp.material_specialize { d with layout := listInsertAt 2 mp.material_layout d.layout }
      key layout <;> rfl

/-- Under the invariant that the base mesh descriptor carries a fragment
state whenever a custom fragment shader is set, `MaterialPipeline::specialize`
never reaches its fragment-state `unwrap` panic. -/
theorem materialPipeline_specialize_isSome (mp : MaterialPipeline)
    (key : MaterialPipelineKey) (layout : Layout)
    (hfrag : ∀ k l d, mp.mesh_pipeline_specialize k l = Except.ok d →
        mp.fragment_shader.isSome = true → d.fragment.isSome = true) :
    (mp.specialize key layout).isSome = true := by
  unfold MaterialPipeline.specialize
  cases hm : mp.mesh_pipeline_specialize key.mesh_key layout with
  | error e => rfl
  | ok d0 =>
    dsimp only
    cases hvs : mp.vertex_shader with
    | none =>
      cases hfs : mp.fragment_shader with
      | none => exact materialPipeline_specializeRest_isSome mp key layout d0
      | some fs =>
        have hd : d0.fragment.isSome = true := hfrag _ _ _ hm (by rw [hfs]; rfl)
        cases hdf : d0.fragment with
        | none => rw [hdf] at hd; simp at hd
        | some f => exact materialPipeline_specializeRest_isSome mp key layout _
    | some vs =>
      cases hfs : mp.fragment_shader with
      | none => exact materialPipeline_specializeRest_isSome mp key layout _
      | some fs =>
        have hd : d0.fragment.isSome = true := hfrag _ _ _ hm (by rw [hfs]; rfl)
        cases hdf : d0.fragment with
        | none => rw [hdf] at hd; simp at hd
        | some f => exact materialPipeline_specializeRest_isSome mp key layout _

/-- The pipeline variant cache query never panics under the same fragment
invariant. -/
theorem pipelines_specialize_isSome (p : Pipelines) (mp : MaterialPipeline)
    (key : MaterialPipelineKey) (layout : Layout)
    (hfrag : ∀ k l d, mp.mesh_pipeline_specialize k l = Except.ok d →
        mp.fragment_shader.isSome = true → d.fragment.isSome = true) :
    (Pipelines.specialize p mp key layout).isSome = true := by
  unfold Pipelines.specialize
  cases hc : assocLookup p.cache (layout, key) with
  | some id => rfl
  | none =>
    have hs := materialPipeline_specialize_isSome mp key layout hfrag
    cases hmp : mp.specialize key layout with
    | none => rw [hmp] at hs; simp at hs
    | some r => cases r <;> rfl

/-- Restatement of `pipelines_specialize_isSome` as a disequality, in the
shape the split branches below need. -/
theorem pipelines_specialize_ne_none (p : Pipelines) (mp : MaterialPipeline)
    (key : MaterialPipelineKey) (layout : Layout)
    (hfrag : ∀ k l d, mp.mesh_pipeline_specialize k l = Except.ok d →
        mp.fragment_shader.isSome = true → d.fragment.isSome = true) :
    Pipelines.specialize p mp key layout ≠ none := by
  intro hnone
  have hs := pipelines_specialize_isSome p mp key layout hfrag
  rw [hnone] at hs
  simp at hs

/-- A per-entity specialization step never panics when the two tick lookups
succeed and the fragment invariant holds. -/
theorem specializeEntityStep_isSome (env : SpecializeEnv) (v : Entity)
    (vk : MeshPipelineKey) (st : SpecState) (ve : Entity) (vt et : Tick)
    (hv : assocLookup env.view_specialization_ticks v = some vt)
    (he : assocLookup env.entity_specialization_ticks ve = some et)
    (hfrag : ∀ k l d, env.pipeline.mesh_pipeline_specialize k l = Except.ok d →
        env.pipeline.fragment_shader.isSome = true → d.fragment.isSome = true) :
    (specializeEntityStep env v vk st ve).isSome = true := by
  unfold specializeEntityStep
  rw [hv, he]
  dsimp only
  repeat' split
  all_goals
    first
      | rfl
      | (rename_i heq
         exact absurd heq (pipelines_specialize_ne_none st.pipelines env.pipeline _ _ hfrag))

/-- The specialize entity loop never panics under per-entity tick coverage. -/
theorem specializeEntitiesLoop_isSome (env : SpecializeEnv) (v : Entity)
    (vk : MeshPipelineKey)
    (hfrag : ∀ k l d, env.pipeline.mesh_pipeline_specialize k l = Except.ok d →
        env.pipeline.fragment_shader.isSome = true → d.fragment.isSome = true) :
    ∀ (l : List (Entity × Entity)) (st : SpecState),
      (∀ p ∈ l, (assocLookup env.entity_specialization_ticks p.2).isSome = true) →
      (assocLookup env.view_specialization_ticks v).isSome = true →
      (specializeEntitiesLoop env v vk st l).isSome = true := by
  intro l
  induction l with
  | nil => intro st _ _; rfl
  | cons p rest ih =>
    intro st hcov hvcov
    rw [specializeEntitiesLoop_cons]
    obtain ⟨vt, hv⟩ := Option.isSome_iff_exists.mp hvcov
    obtain ⟨et, he⟩ := Option.isSome_iff_exists.mp (hcov p (List.mem_cons_self p rest))
    have hstep := specializeEntityStep_isSome env v vk st p.2 vt et hv he hfrag
    cases hs : specializeEntityStep env v vk st p.2 with
    | none => rw [hs] at hstep; simp at hstep
    | some r =>
      obtain ⟨st1, tr⟩ := r
      exact ih st1 (fun q hq => hcov q (List.mem_cons_of_mem p hq)) hvcov

/-- A per-view specialization iteration never panics under coverage. -/
theorem specializeViewStep_isSome (env : SpecializeEnv) (st : SpecState)
    (view : ViewInfo)
    (hvcov : (assocLookup env.view_specialization_ticks view.view_entity).isSome = true)
    (hecov : ∀ p ∈ view.visible,
        (assocLookup env.entity_specialization_ticks p.2).isSome = true)
    (hfrag : ∀ k l d, env.pipeline.mesh_pipeline_specialize k l = Except.ok d →
        env.pipeline.fragment_shader.isSome = true → d.fragment.isSome = true) :
    (specializeViewStep env st view).isSome = true := by
  unfold specializeViewStep
  split
  · rfl
  · cases hk : assocLookup env.view_key_cache view.view_entity with
    | none => rfl
    | some vkk =>
      exact specializeEntitiesLoop_isSome env view.view_entity vkk hfrag
        view.visible st hecov hvcov

/-- Unfolding equation for one cons cell of the views loop. -/
theorem specializeViewsLoop_cons (env : SpecializeEnv) (st : SpecState)
    (v : ViewInfo) (rest : List ViewInfo) :
    specializeViewsLoop env st (v :: rest)
      = match specializeViewStep env st v with
        | none => none
        | some st1 => specializeViewsLoop env st1 rest := rfl

/-- C7: no input state makes the specialization pass abort, provided the
upstream systems (outside this file) have populated a specialization tick
for every view and every visible entity — so the panic branches of the two
tick-lookup `unwrap`s are unreachable — and the base mesh descriptor carries
a fragment state whenever a custom fragment shader is set — so the
fragment-state `unwrap` in `MaterialPipeline::specialize` succeeds. -/
theorem c7_no_panic (env : SpecializeEnv) (st : SpecState)
    (hviews : ∀ view ∈ env.views,
        (assocLookup env.view_specialization_ticks view.view_entity).isSome = true)
    (hentities : ∀ view ∈ env.views, ∀ p ∈ view.visible,
        (assocLookup env.entity_specialization_ticks p.2).isSome = true)
    (hfrag : ∀ k l d, env.pipeline.mesh_pipeline_specialize k l = Except.ok d →
        env.pipeline.fragment_shader.isSome = true → d.fragment.isSome = true) :
    (specialize_material_meshes env st).isSome = true := by
  unfold specialize_material_meshes
  have hall : ∀ (vs : List ViewInfo),
      (∀ view ∈ vs,
        (assocLookup env.view_specialization_ticks view.view_entity).isSome = true) →
      (∀ view ∈ vs, ∀ p ∈ view.visible,
        (assocLookup env.entity_specialization_ticks p.2).isSome = true) →
      ∀ st0 : SpecState, (specializeViewsLoop env st0 vs).isSome = true := by
    intro vs
    induction vs with
    | nil => intro _ _ st0; rfl
    | cons vhead rest ih =>
      intro hv he st0
      rw [specializeViewsLoop_cons]
      have hstep := specializeViewStep_isSome env st0 vhead
        (hv vhead (List.mem_cons_self vhead rest))
        (he vhead (List.mem_cons_self vhead rest)) hfrag
      cases hs : specializeViewStep env st0 vhead with
      | none => rw [hs] at hstep; simp at hstep
      | some st1 =>
        exact ih (fun w hw => hv w (List.mem_cons_of_mem vhead hw))
          (fun w hw => he w (List.mem_cons_of_mem vhead hw)) st1
  exact hall env.views hviews hentities st

/-- Witness for C7 at a concrete input. -/
theorem c7_witness : (specialize_material_meshes specEnvFix specStateFix).isSome = true :=
  c7_no_panic specEnvFix specStateFix
    (by
      intro w hw
      have hw2 : w ∈ [viewFix] := hw
      rw [List.mem_singleton] at hw2
      subst hw2
      rfl)
    (by
      intro w hw p hp
      have hw2 : w ∈ [viewFix] := hw
      rw [List.mem_singleton] at hw2
      subst hw2
      have hp2 : p ∈ [((9 : Entity), (5 : Entity))] := hp
      rw [List.mem_singleton] at hp2
      subst hp2
      rfl)
    (by
      intro k l d h hf
      simp only [specEnvFix, pipelineFix] at h
      injection h with h1
      subst h1
      rfl)

/-- Unloading an asset with no recorded binding does nothing. -/
theorem unload_asset_absent (id : MatAssetId) (st : PrepareState)
    (h : assocLookup st.render_material_bindings id = none) :
    PreparedMaterial.unload_asset id st = st := by
  unfold PreparedMaterial.unload_asset
  rw [h]

/-- C9: `prepare_asset` allocates at most one material binding per asset id —
when a binding is already recorded it is reused with no new allocation and no
free (i); a first preparation records exactly one fresh binding (ii);
`unload_asset` removes the mapping and frees that binding exactly once (iii);
and a second unload of the same asset id returns without freeing again (iv). -/
theorem c9_binding_unique_freed_once :
    (∀ (m : Material) (id : MatAssetId) (env : PrepareEnv) (st : PrepareState)
        (b : MaterialBindingId),
        assocLookup st.render_material_bindings id = some b →
        (PreparedMaterial.prepare_asset m id env st).2.render_material_bindings
            = st.render_material_bindings
        ∧ (PreparedMaterial.prepare_asset m id env st).2.bind_group_allocator.next_group
            = st.bind_group_allocator.next_group
        ∧ (PreparedMaterial.prepare_asset m id env st).2.bind_group_allocator.freed
            = st.bind_group_allocator.freed
        ∧ ∀ pm, (PreparedMaterial.prepare_asset m id env st).1 = .ok pm →
            pm.binding = b)
  ∧ (∀ (m : Material) (id : MatAssetId) (env : PrepareEnv) (st : PrepareState),
        assocLookup st.render_material_bindings id = none →
        (PreparedMaterial.prepare_asset m id env st).2.render_material_bindings
            = (id, ⟨st.bind_group_allocator.next_group, 0⟩)
                :: st.render_material_bindings
        ∧ (PreparedMaterial.prepare_asset m id env st).2.bind_group_allocator.next_group
            = st.bind_group_allocator.next_group + 1)
  ∧ (∀ (id : MatAssetId) (st : PrepareState) (b : MaterialBindingId),
        assocLookup st.render_material_bindings id = some b →
        (PreparedMaterial.unload_asset id st).bind_group_allocator.freed
            = st.bind_group_allocator.freed ++ [b]
        ∧ assocLookup
            (PreparedMaterial.unload_asset id st).render_material_bindings id
            = none)
  ∧ (∀ (id : MatAssetId) (st : PrepareState),
        PreparedMaterial.unload_asset id (PreparedMaterial.unload_asset id st)
            = PreparedMaterial.unload_asset id st) := by
  refine ⟨?_, ?_, ?_, ?_⟩
  · intro m id env st b h
    unfold PreparedMaterial.prepare_asset
    rw [h]
    dsimp only
    cases hu : m.unprepared_bind_group with
    | ok u =>
      exact ⟨rfl, rfl, rfl, fun pm hpm => by injection hpm with h2; rw [← h2]⟩
    | error e =>
      cases e with
      | RetryNextUpdate =>
        exact ⟨rfl, rfl, rfl, fun pm hpm => Except.noConfusion hpm⟩
      | CreateBindGroupDirectly =>
        cases ha : m.as_bind_group with
        | ok pr =>
          exact ⟨rfl, rfl, rfl, fun pm hpm => by injection hpm with h2; rw [← h2]⟩
        | error e2 =>
          cases e2 with
          | RetryNextUpdate =>
            exact ⟨rfl, rfl, rfl, fun pm hpm => Except.noConfusion hpm⟩
          | CreateBindGroupDirectly =>
            exact ⟨rfl, rfl, rfl, fun pm hpm => Except.noConfusion hpm⟩
          | other e3 =>
            exact ⟨rfl, rfl, rfl, fun pm hpm => Except.noConfusion hpm⟩
      | other e3 =>
        exact ⟨rfl, rfl, rfl, fun pm hpm => Except.noConfusion hpm⟩
  · intro m id env st h
    unfold PreparedMaterial.prepare_asset
    rw [h]
    dsimp only
    cases hu : m.unprepared_bind_group with
    | ok u => exact ⟨rfl, rfl⟩
    | error e =>
      cases e with
      | RetryNextUpdate => exact ⟨rfl, rfl⟩
      | CreateBindGroupDirectly =>
        cases ha : m.as_bind_group with
        | ok pr => exact ⟨rfl, rfl⟩
        | error e2 =>
          cases e2 with
          | RetryNextUpdate => exact ⟨rfl, rfl⟩
          | CreateBindGroupDirectly => exact ⟨rfl, rfl⟩
          | other e3 => exact ⟨rfl, rfl⟩
      | other e3 => exact ⟨rfl, rfl⟩
  · intro id st b h
    unfold PreparedMaterial.unload_asset
    rw [h]
    dsimp only
    exact ⟨rfl, assocLookup_remove_self st.render_material_bindings id⟩
  · intro id st
    cases h : assocLookup st.render_material_bindings id with
    | none =>
      rw [unload_asset_absent id st h]
      exact unload_asset_absent id st h
    | some b =>
      have h2 : assocLookup
          (PreparedMaterial.unload_asset id st).render_material_bindings id
          = none := by
        unfold PreparedMaterial.unload_asset
        rw [h]
        dsimp only
        exact assocLookup_remove_self st.render_material_bindings id
      exact unload_asset_absent id _ h2

/-- A concrete source material whose bind-group constructors succeed. -/
def materialFix : Material :=
  { alpha_mode := .Opaque, opaque_render_method := .Forward, depth_bias := 0,
    reads_view_transmission_texture := false,
    unprepared_bind_group := .ok 0, as_bind_group := .ok (0, 0) }

/-- A concrete prepare environment. -/
def prepareEnvFix : PrepareEnv :=
  { default_opaque_render_method := .Forward, draw_opaque_pbr := 0,
    draw_alpha_mask_pbr := 1, draw_transmissive_pbr := 2,
    draw_transparent_pbr := 3, draw_opaque_prepass := none,
    draw_alpha_mask_prepass := none, draw_opaque_deferred := none,
    draw_alpha_mask_deferred := none }

/-- A prepare state already holding the binding of asset 7. -/
def prepareStateFix : PrepareState :=
  { bind_group_allocator := allocatorFix,
    render_material_bindings := [(7, ⟨0, 0⟩)] }

/-- Witness for C9 at concrete inputs (re-prepare of asset 7, fresh prepare
of asset 8, double unload of asset 7). -/
theorem c9_witness :
    ((PreparedMaterial.prepare_asset materialFix 7 prepareEnvFix
          prepareStateFix).2.render_material_bindings
        = prepareStateFix.render_material_bindings
      ∧ (PreparedMaterial.prepare_asset materialFix 7 prepareEnvFix
          prepareStateFix).2.bind_group_allocator.next_group
        = prepareStateFix.bind_group_allocator.next_group
      ∧ (PreparedMaterial.prepare_asset materialFix 7 prepareEnvFix
          prepareStateFix).2.bind_group_allocator.freed
        = prepareStateFix.bind_group_allocator.freed
      ∧ ∀ pm, (PreparedMaterial.prepare_asset materialFix 7 prepareEnvFix
          prepareStateFix).1 = .ok pm → pm.binding = ⟨0, 0⟩)
    ∧ ((PreparedMaterial.prepare_asset materialFix 8 prepareEnvFix
          prepareStateFix).2.render_material_bindings
        = (8, ⟨prepareStateFix.bind_group_allocator.next_group, 0⟩)
            :: prepareStateFix.render_material_bindings
      ∧ (PreparedMaterial.prepare_asset materialFix 8 prepareEnvFix
          prepareStateFix).2.bind_group_allocator.next_group
        = prepareStateFix.bind_group_allocator.next_group + 1)
    ∧ ((PreparedMaterial.unload_asset 7 prepareStateFix).bind_group_allocator.freed
        = prepareStateFix.bind_group_allocator.freed ++ [⟨0, 0⟩]
      ∧ assocLookup
          (PreparedMaterial.unload_asset 7 prepareStateFix).render_material_bindings 7
        = none)
    ∧ PreparedMaterial.unload_asset 7 (PreparedMaterial.unload_asset 7 prepareStateFix)
        = PreparedMaterial.unload_asset 7 prepareStateFix :=
  ⟨c9_binding_unique_freed_once.1 materialFix 7 prepareEnvFix prepareStateFix
      ⟨0, 0⟩ rfl,
   c9_binding_unique_freed_once.2.1 materialFix 8 prepareEnvFix prepareStateFix rfl,
   c9_binding_unique_freed_once.2.2.1 7 prepareStateFix ⟨0, 0⟩ rfl,
   c9_binding_unique_freed_once.2.2.2 7 prepareStateFix⟩

/-- `validate_cached_entity` never changes the binned items. -/
theorem validate_items {BSK : Type} [DecidableEq BSK] (p : BinnedPhase BSK)
    (e : Entity) (t : Tick) :
    (p.validate_cached_entity e t).2.items = p.items := by
  unfold BinnedPhase.validate_cached_entity
  split <;> rfl

/-- `validate_cached_entity` only ever marks the queried entity. -/
theorem validate_validated {BSK : Type} [DecidableEq BSK] (p : BinnedPhase BSK)
    (e : Entity) (t : Tick) :
    (p.validate_cached_entity e t).2.validated = p.validated
    ∨ (p.validate_cached_entity e t).2.validated = e :: p.validated := by
  unfold BinnedPhase.validate_cached_entity
  split
  · exact Or.inr rfl
  · exact Or.inl rfl

/-- A successful `validate_cached_entity` finds a matching binned item. -/
theorem validate_true_mem {BSK : Type} [DecidableEq BSK] (p : BinnedPhase BSK)
    (e : Entity) (t : Tick)
    (h : (p.validate_cached_entity e t).1 = true) :
    ∃ it ∈ p.items, it.entity.2 = e ∧ it.change_tick = t := by
  unfold BinnedPhase.validate_cached_entity at h
  split at h
  · next hany =>
      rw [List.any_eq_true] at hany
      obtain ⟨it, hit, hdec⟩ := hany
      rw [decide_eq_true_eq] at hdec
      exact ⟨it, hit, hdec⟩
  · exact absurd h (by simp)

/-- A failed `validate_cached_entity` leaves the phase untouched. -/
theorem validate_false {BSK : Type} [DecidableEq BSK] (p : BinnedPhase BSK)
    (e : Entity) (t : Tick) :
    (p.validate_cached_entity e t).1 = false →
      (p.validate_cached_entity e t).2 = p := by
  unfold BinnedPhase.validate_cached_entity
  split
  · intro h; exact absurd h (by simp)
  · intro _; rfl

/-- What one queue iteration does to the opaque items: it leaves them
unchanged, or — only when the entity's resolved material is classified
`Opaque` with a render method other than `Deferred` — it re-bins that one
entity. -/
theorem queueEntityStep_opaque_items_eq (env : QueueEnv) (view : ViewInfo)
    (ph : ViewPhases) (re e : Entity) :
    (queueEntityStep env view ph (re, e)).opaque_phase.items
        = ph.opaque_phase.items
    ∨ (∃ mat bsk bk batch tick,
        queue_resolved_material env e = some mat
        ∧ mat.properties.render_phase_type = RenderPhaseType.Opaque
        ∧ mat.properties.render_method ≠ OpaqueRendererMethod.Deferred
        ∧ (queueEntityStep env view ph (re, e)).opaque_phase.items
            = { batch_set_key := bsk, bin_key := bk, entity := (re, e),
                change_tick := tick, batchable := batch }
              :: ph.opaque_phase.items.filter
                  (fun it => decide (it.entity.2 ≠ e))) := by
  unfold queueEntityStep
  dsimp only
  cases hc : assocLookup env.specialized_material_pipeline_cache
      (view.view_entity, e) with
  | none => exact Or.inl rfl
  | some cached =>
    dsimp only
    cases hvop : ph.opaque_phase.validate_cached_entity e cached.1 with
    | mk vb oph =>
      have hopitems : oph.items = ph.opaque_phase.items := by
        have h0 := validate_items ph.opaque_phase e cached.1
        rw [hvop] at h0
        exact h0
      cases vb with
      | true => exact Or.inl hopitems
      | false =>
        have hopeq : oph = ph.opaque_phase := by
          have h0 := validate_false ph.opaque_phase e cached.1 (by rw [hvop])
          rw [hvop] at h0
          exact h0
        subst hopeq
        cases hvam : ph.alpha_mask_phase.validate_cached_entity e cached.1 with
        | mk ab amh =>
          cases ab with
          | true => exact Or.inl rfl
          | false =>
            cases h1 : assocLookup env.render_material_instances e with
            | none => exact Or.inl rfl
            | some maid =>
              dsimp only
              cases h2 : assocLookup env.render_mesh_instances e with
              | none => exact Or.inl rfl
              | some mi =>
                dsimp only
                cases h3 : assocLookup env.render_materials maid with
                | none => exact Or.inl rfl
                | some mat =>
                  dsimp only
                  cases hphase : mat.properties.render_phase_type with
                  | Transmissive => exact Or.inl rfl
                  | Transparent => exact Or.inl rfl
                  | AlphaMask => exact Or.inl rfl
                  | Opaque =>
                    by_cases hdef : mat.properties.render_method
                        = OpaqueRendererMethod.Deferred
                    · refine Or.inl ?_
                      show (if mat.properties.render_method
                            = OpaqueRendererMethod.Deferred then _
                          else _ : ViewPhases).opaque_phase.items = _
                      rw [if_pos hdef]
                    · refine Or.inr ⟨mat,
                        { pipeline := cached.2,
                          draw_function := mat.properties.draw_function_id,
                          material_bind_group_index := some mat.binding.group,
                          vertex_slab := ((assocLookup env.mesh_allocator
                            mi.mesh_asset_id).getD (none, none)).1.getD 0,
                          index_slab := ((assocLookup env.mesh_allocator
                            mi.mesh_asset_id).getD (none, none)).2,
                          lightmap_slab := mi.lightmap_slab_index },
                        mi.mesh_asset_id, mi.should_batch, cached.1,
                        ?_, hphase, hdef, ?_⟩
                      · unfold queue_resolved_material
                        rw [h1]
                        exact h3
                      · show (if mat.properties.render_method
                              = OpaqueRendererMethod.Deferred then _
                            else _ : ViewPhases).opaque_phase.items = _
                        rw [if_neg hdef]
                        rfl


/-- What one queue iteration does to the alpha-mask items: unchanged, or —
only when the entity's resolved material is classified `AlphaMask` — it
re-bins that one entity. -/
theorem queueEntityStep_alpha_items_eq (env : QueueEnv) (view : ViewInfo)
    (ph : ViewPhases) (re e : Entity) :
    (queueEntityStep env view ph (re, e)).alpha_mask_phase.items
        = ph.alpha_mask_phase.items
    ∨ (∃ mat bsk bk batch tick,
        queue_resolved_material env e = some mat
        ∧ mat.properties.render_phase_type = RenderPhaseType.AlphaMask
        ∧ (queueEntityStep env view ph (re, e)).alpha_mask_phase.items
            = { batch_set_key := bsk, bin_key := bk, entity := (re, e),
                change_tick := tick, batchable := batch }
              :: ph.alpha_mask_phase.items.filter
                  (fun it => decide (it.entity.2 ≠ e))) := by
  unfold queueEntityStep
  dsimp only
  cases hc : assocLookup env.specialized_material_pipeline_cache
      (view.view_entity, e) with
  | none => exact Or.inl rfl
  | some cached =>
    dsimp only
    cases hvop : ph.opaque_phase.validate_cached_entity e cached.1 with
    | mk vb oph =>
      cases vb with
      | true => exact Or.inl rfl
      | false =>
        have hopeq : oph = ph.opaque_phase := by
          have h0 := validate_false ph.opaque_phase e cached.1 (by rw [hvop])
          rw [hvop] at h0
          exact h0
        subst hopeq
        cases hvam : ph.alpha_mask_phase.validate_cached_entity e cached.1 with
        | mk ab amh =>
          have hamitems : amh.items = ph.alpha_mask_phase.items := by
            have h0 := validate_items ph.alpha_mask_phase e cached.1
            rw [hvam] at h0
            exact h0
          cases ab with
          | true => exact Or.inl hamitems
          | false =>
            have hameq : amh = ph.alpha_mask_phase := by
              have h0 := validate_false ph.alpha_mask_phase e cached.1 (by rw [hvam])
              rw [hvam] at h0
              exact h0
            subst hameq
            cases h1 : assocLookup env.render_material_instances e with
            | none => exact Or.inl rfl
            | some maid =>
              dsimp only
              cases h2 : assocLookup env.render_mesh_instances e with
              | none => exact Or.inl rfl
              | some mi =>
                dsimp only
                cases h3 : assocLookup env.render_materials maid with
                | none => exact Or.inl rfl
                | some mat =>
                  dsimp only
                  cases hphase : mat.properties.render_phase_type with
                  | Transmissive => exact Or.inl rfl
                  | Transparent => exact Or.inl rfl
                  | Opaque =>
                    by_cases hdef : mat.properties.render_method
                        = OpaqueRendererMethod.Deferred
                    · refine Or.inl ?_
                      show (if mat.properties.render_method
                            = OpaqueRendererMethod.Deferred then _
                          else _ : ViewPhases).alpha_mask_phase.items = _
                      rw [if_pos hdef]
                    · refine Or.inl ?_
                      show (if mat.properties.render_method
                            = OpaqueRendererMethod.Deferred then _
                          else _ : ViewPhases).alpha_mask_phase.items = _
                      rw [if_neg hdef]
                  | AlphaMask =>
                    refine Or.inr ⟨mat,
                      { draw_function := mat.properties.draw_function_id,
                        pipeline := cached.2,
                        material_bind_group_index := some mat.binding.group,
                        vertex_slab := ((assocLookup env.mesh_allocator
                          mi.mesh_asset_id).getD (none, none)).1.getD 0,
                        index_slab := ((assocLookup env.mesh_allocator
                          mi.mesh_asset_id).getD (none, none)).2 },
                      mi.mesh_asset_id, mi.should_batch, cached.1,
                      ?_, hphase, ?_⟩
                    · unfold queue_resolved_material
                      rw [h1]
                      exact h3
                    · rfl

/-- One queue iteration only marks its own entity as validated, and never
unmarks an entity, in both binned phases. -/
theorem queueEntityStep_validated (env : QueueEnv) (view : ViewInfo)
    (ph : ViewPhases) (re e : Entity) :
    (∀ x ∈ (queueEntityStep env view ph (re, e)).opaque_phase.validated,
        x = e ∨ x ∈ ph.opaque_phase.validated)
    ∧ (∀ x ∈ (queueEntityStep env view ph (re, e)).alpha_mask_phase.validated,
        x = e ∨ x ∈ ph.alpha_mask_phase.validated)
    ∧ (∀ x ∈ ph.opaque_phase.validated,
        x ∈ (queueEntityStep env view ph (re, e)).opaque_phase.validated)
    ∧ (∀ x ∈ ph.alpha_mask_phase.validated,
        x ∈ (queueEntityStep env view ph (re, e)).alpha_mask_phase.validated) := by
  unfold queueEntityStep
  dsimp only
  cases hc : assocLookup env.specialized_material_pipeline_cache
      (view.view_entity, e) with
  | none =>
    exact ⟨fun x hx => Or.inr hx, fun x hx => Or.inr hx, fun x hx => hx,
      fun x hx => hx⟩
  | some cached =>
    dsimp only
    cases hvop : ph.opaque_phase.validate_cached_entity e cached.1 with
    | mk vb oph =>
      cases vb with
      | true =>
        have hvv := validate_validated ph.opaque_phase e cached.1
        rw [hvop] at hvv
        refine ⟨?_, fun x hx => Or.inr hx, ?_, fun x hx => hx⟩
        · intro x hx
          have hx2 : x ∈ oph.validated := hx
          rcases hvv with h | h
          · rw [h] at hx2; exact Or.inr hx2
          · rw [h] at hx2
            rcases List.mem_cons.mp hx2 with h2 | h2
            · exact Or.inl h2
            · exact Or.inr h2
        · intro x hx
          show x ∈ oph.validated
          rcases hvv with h | h
          · rw [h]; exact hx
          · rw [h]; exact List.mem_cons_of_mem _ hx
      | false =>
        have hopeq : oph = ph.opaque_phase := by
          have h0 := validate_false ph.opaque_phase e cached.1 (by rw [hvop])
          rw [hvop] at h0
          exact h0
        subst hopeq
        cases hvam : ph.alpha_mask_phase.validate_cached_entity e cached.1 with
        | mk ab amh =>
          cases ab with
          | true =>
            have hvv := validate_validated ph.alpha_mask_phase e cached.1
            rw [hvam] at hvv
            refine ⟨fun x hx => Or.inr hx, ?_, fun x hx => hx, ?_⟩
            · intro x hx
              have hx2 : x ∈ amh.validated := hx
              rcases hvv with h | h
              · rw [h] at hx2; exact Or.inr hx2
              · rw [h] at hx2
                rcases List.mem_cons.mp hx2 with h2 | h2
                · exact Or.inl h2
                · exact Or.inr h2
            · intro x hx
              show x ∈ amh.validated
              rcases hvv with h | h
              · rw [h]; exact hx
              · rw [h]; exact List.mem_cons_of_mem _ hx
          | false =>
            have hameq : amh = ph.alpha_mask_phase := by
              have h0 := validate_false ph.alpha_mask_phase e cached.1 (by rw [hvam])
              rw [hvam] at h0
              exact h0
            subst hameq
            cases h1 : assocLookup env.render_material_instances e with
            | none =>
              exact ⟨fun x hx => Or.inr hx, fun x hx => Or.inr hx,
                fun x hx => hx, fun x hx => hx⟩
            | some maid =>
              dsimp only
              cases h2 : assocLookup env.render_mesh_instances e with
              | none =>
                exact ⟨fun x hx => Or.inr hx, fun x hx => Or.inr hx,
                  fun x hx => hx, fun x hx => hx⟩
              | some mi =>
                dsimp only
                cases h3 : assocLookup env.render_materials maid with
                | none =>
                  exact ⟨fun x hx => Or.inr hx, fun x hx => Or.inr hx,
                    fun x hx => hx, fun x hx => hx⟩
                | some mat =>
                  dsimp only
                  cases hphase : mat.properties.render_phase_type with
                  | Transmissive =>
                    exact ⟨fun x hx => Or.inr hx, fun x hx => Or.inr hx,
                      fun x hx => hx, fun x hx => hx⟩
                  | Transparent =>
                    exact ⟨fun x hx => Or.inr hx, fun x hx => Or.inr hx,
                      fun x hx => hx, fun x hx => hx⟩
                  | AlphaMask =>
                    refine ⟨fun x hx => Or.inr hx, ?_, fun x hx => hx, ?_⟩
                    · intro x hx
                      have hx2 : x ∈ e :: ph.alpha_mask_phase.validated := hx
                      rcases List.mem_cons.mp hx2 with h2 | h2
                      · exact Or.inl h2
                      · exact Or.inr h2
                    · intro x hx
                      show x ∈ e :: ph.alpha_mask_phase.validated
                      exact List.mem_cons_of_mem _ hx
                  | Opaque =>
                    dsimp only
                    by_cases hdef : mat.properties.render_method
                        = OpaqueRendererMethod.Deferred
                    · rw [if_pos hdef]
                      exact ⟨fun x hx => Or.inr hx, fun x hx => Or.inr hx,
                        fun x hx => hx, fun x hx => hx⟩
                    · rw [if_neg hdef]
                      refine ⟨?_, fun x hx => Or.inr hx, ?_, fun x hx => hx⟩
                      · intro x hx
                        have hx2 : x ∈ e :: ph.opaque_phase.validated := hx
                        rcases List.mem_cons.mp hx2 with h2 | h2
                        · exact Or.inl h2
                        · exact Or.inr h2
                      · intro x hx
                        show x ∈ e :: ph.opaque_phase.validated
                        exact List.mem_cons_of_mem _ hx

/-- One queue iteration only appends to the two sorted phases. -/
theorem queueEntityStep_sorted_append (env : QueueEnv) (view : ViewInfo)
    (ph : ViewPhases) (re e : Entity) :
    (∃ l, (queueEntityStep env view ph (re, e)).transmissive
        = ph.transmissive ++ l)
    ∧ (∃ l, (queueEntityStep env view ph (re, e)).transparent
        = ph.transparent ++ l) := by
  unfold queueEntityStep
  dsimp only
  cases hc : assocLookup env.specialized_material_pipeline_cache
      (view.view_entity, e) with
  | none => exact ⟨⟨[], (List.append_nil _).symm⟩, ⟨[], (List.append_nil _).symm⟩⟩
  | some cached =>
    dsimp only
    cases hvop : ph.opaque_phase.validate_cached_entity e cached.1 with
    | mk vb oph =>
      cases vb with
      | true => exact ⟨⟨[], (List.append_nil _).symm⟩, ⟨[], (List.append_nil _).symm⟩⟩
      | false =>
        cases hvam : ph.alpha_mask_phase.validate_cached_entity e cached.1 with
        | mk ab amh =>
          cases ab with
          | true =>
            exact ⟨⟨[], (List.append_nil _).symm⟩, ⟨[], (List.append_nil _).symm⟩⟩
          | false =>
            cases h1 : assocLookup env.render_material_instances e with
            | none =>
              exact ⟨⟨[], (List.append_nil _).symm⟩, ⟨[], (List.append_nil _).symm⟩⟩
            | some maid =>
              dsimp only
              cases h2 : assocLookup env.render_mesh_instances e with
              | none =>
                exact ⟨⟨[], (List.append_nil _).symm⟩,
                  ⟨[], (List.append_nil _).symm⟩⟩
              | some mi =>
                dsimp only
                cases h3 : assocLookup env.render_materials maid with
                | none =>
                  exact ⟨⟨[], (List.append_nil _).symm⟩,
                    ⟨[], (List.append_nil _).symm⟩⟩
                | some mat =>
                  dsimp only
                  cases hphase : mat.properties.render_phase_type with
                  | Transmissive =>
                    exact ⟨⟨_, rfl⟩, ⟨[], (List.append_nil _).symm⟩⟩
                  | Transparent =>
                    exact ⟨⟨[], (List.append_nil _).symm⟩, ⟨_, rfl⟩⟩
                  | AlphaMask =>
                    exact ⟨⟨[], (List.append_nil _).symm⟩,
                      ⟨[], (List.append_nil _).symm⟩⟩
                  | Opaque =>
                    dsimp only
                    by_cases hdef : mat.properties.render_method
                        = OpaqueRendererMethod.Deferred
                    · rw [if_pos hdef]
                      exact ⟨⟨[], (List.append_nil _).symm⟩,
                        ⟨[], (List.append_nil _).symm⟩⟩
                    · rw [if_neg hdef]
                      exact ⟨⟨[], (List.append_nil _).symm⟩,
                        ⟨[], (List.append_nil _).symm⟩⟩

/-- The membership a drawable must end with in the phase its material
selects: an item referencing it in the sorted list, or an item plus a
validation mark in the binned phase, depending on the material's
`render_phase_type` (with the forward-opaque case excluding `Deferred`). -/
def establishedFor (mat : PreparedMaterial) (ve : Entity) (ph : ViewPhases) : Prop :=
  (mat.properties.render_phase_type = RenderPhaseType.Transparent →
      ∃ it ∈ ph.transparent, it.entity.2 = ve)
  ∧ (mat.properties.render_phase_type = RenderPhaseType.Transmissive →
      ∃ it ∈ ph.transmissive, it.entity.2 = ve)
  ∧ (mat.properties.render_phase_type = RenderPhaseType.AlphaMask →
      (∃ it ∈ ph.alpha_mask_phase.items, it.entity.2 = ve)
      ∧ ve ∈ ph.alpha_mask_phase.validated)
  ∧ (mat.properties.render_phase_type = RenderPhaseType.Opaque →
      mat.properties.render_method ≠ OpaqueRendererMethod.Deferred →
      (∃ it ∈ ph.opaque_phase.items, it.entity.2 = ve)
      ∧ ve ∈ ph.opaque_phase.validated)

/-- Processing a visible drawable whose cache entry and upstream data are all
present, against phases that do not yet reference it, places it in exactly
the phase its material selects. -/
theorem queueEntityStep_establishes (env : QueueEnv) (view : ViewInfo)
    (ph : ViewPhases) (re e : Entity) (t : Tick) (pid : PipelineId)
    (maid : MatAssetId) (mi : RenderMeshQueueData) (mat : PreparedMaterial)
    (hc : assocLookup env.specialized_material_pipeline_cache
        (view.view_entity, e) = some (t, pid))
    (h1 : assocLookup env.render_material_instances e = some maid)
    (h2 : assocLookup env.render_mesh_instances e = some mi)
    (h3 : assocLookup env.render_materials maid = some mat)
    (hop : ∀ it ∈ ph.opaque_phase.items, it.entity.2 ≠ e)
    (ham : ∀ it ∈ ph.alpha_mask_phase.items, it.entity.2 ≠ e) :
    establishedFor mat e (queueEntityStep env view ph (re, e)) := by
  have hvop : ph.opaque_phase.validate_cached_entity e t = (false, ph.opaque_phase) := by
    unfold BinnedPhase.validate_cached_entity
    rw [if_neg]
    intro hany
    rw [List.any_eq_true] at hany
    obtain ⟨it, hit, hdec⟩ := hany
    rw [decide_eq_true_eq] at hdec
    exact hop it hit hdec.1
  have hvam : ph.alpha_mask_phase.validate_cached_entity e t
      = (false, ph.alpha_mask_phase) := by
    unfold BinnedPhase.validate_cached_entity
    rw [if_neg]
    intro hany
    rw [List.any_eq_true] at hany
    obtain ⟨it, hit, hdec⟩ := hany
    rw [decide_eq_true_eq] at hdec
    exact ham it hit hdec.1
  refine ⟨?_, ?_, ?_, ?_⟩
  · intro hphase
    simp [queueEntityStep, establishedFor, hc, hvop, hvam, h1, h2, h3, hphase,
      BinnedPhase.add]
    exact ⟨_, Or.inr rfl, rfl⟩
  · intro hphase
    simp [queueEntityStep, establishedFor, hc, hvop, hvam, h1, h2, h3, hphase,
      BinnedPhase.add]
    exact ⟨_, Or.inr rfl, rfl⟩
  · intro hphase
    simp [queueEntityStep, establishedFor, hc, hvop, hvam, h1, h2, h3, hphase,
      BinnedPhase.add]
  · intro hphase hdef
    simp [queueEntityStep, establishedFor, hc, hvop, hvam, h1, h2, h3, hphase,
      hdef, BinnedPhase.add]

/-- Processing a different drawable never introduces binned items for an
absent entity. -/
theorem queueEntityStep_absence (env : QueueEnv) (view : ViewInfo)
    (ph : ViewPhases) (pre pe ve : Entity) (hne : pe ≠ ve)
    (hop : ∀ it ∈ ph.opaque_phase.items, it.entity.2 ≠ ve)
    (ham : ∀ it ∈ ph.alpha_mask_phase.items, it.entity.2 ≠ ve) :
    (∀ it ∈ (queueEntityStep env view ph (pre, pe)).opaque_phase.items,
        it.entity.2 ≠ ve)
    ∧ (∀ it ∈ (queueEntityStep env view ph (pre, pe)).alpha_mask_phase.items,
        it.entity.2 ≠ ve) := by
  constructor
  · intro it hit
    rcases queueEntityStep_opaque_items_eq env view ph pre pe with
      hsame | ⟨mat, bsk, bk, b, tk, -, -, -, heq⟩
    · rw [hsame] at hit; exact hop it hit
    · rw [heq] at hit
      rcases List.mem_cons.mp hit with h | h
      · rw [h]; exact hne
      · exact hop it (List.mem_of_mem_filter h)
  · intro it hit
    rcases queueEntityStep_alpha_items_eq env view ph pre pe with
      hsame | ⟨mat, bsk, bk, b, tk, -, -, heq⟩
    · rw [hsame] at hit; exact ham it hit
    · rw [heq] at hit
      rcases List.mem_cons.mp hit with h | h
      · rw [h]; exact hne
      · exact ham it (List.mem_of_mem_filter h)

/-- Once a drawable is correctly placed, later queue iterations keep it
placed: sorted phases only grow, binned phases keep or re-insert its item
and never unmark its validation. -/
theorem queueEntityStep_preserves_established (env : QueueEnv) (view : ViewInfo)
    (ph : ViewPhases) (p : Entity × Entity) (mat : PreparedMaterial) (ve : Entity)
    (hest : establishedFor mat ve ph) :
    establishedFor mat ve (queueEntityStep env view ph p) := by
  obtain ⟨pre, pe⟩ := p
  obtain ⟨hT, hM, hA, hO⟩ := hest
  have hval := queueEntityStep_validated env view ph pre pe
  have hsor := queueEntityStep_sorted_append env view ph pre pe
  refine ⟨?_, ?_, ?_, ?_⟩
  · intro hphase
    obtain ⟨it, hit, hive⟩ := hT hphase
    obtain ⟨l, hl⟩ := hsor.2
    exact ⟨it, by rw [hl]; exact List.mem_append_left _ hit, hive⟩
  · intro hphase
    obtain ⟨it, hit, hive⟩ := hM hphase
    obtain ⟨l, hl⟩ := hsor.1
    exact ⟨it, by rw [hl]; exact List.mem_append_left _ hit, hive⟩
  · intro hphase
    obtain ⟨⟨it, hit, hive⟩, hv⟩ := hA hphase
    refine ⟨?_, hval.2.2.2 ve hv⟩
    rcases queueEntityStep_alpha_items_eq env view ph pre pe with
      hsame | ⟨mat2, bsk, bk, b, tk, -, -, heq⟩
    · exact ⟨it, by rw [hsame]; exact hit, hive⟩
    · by_cases hpe : pe = ve
      · subst hpe
        exact ⟨_, by rw [heq]; exact List.mem_cons_self _ _, rfl⟩
      · refine ⟨it, ?_, hive⟩
        rw [heq]
        refine List.mem_cons_of_mem _ (List.mem_filter.mpr ⟨hit, ?_⟩)
        rw [hive]
        exact decide_eq_true (fun h => hpe h.symm)
  · intro hphase hdef
    obtain ⟨⟨it, hit, hive⟩, hv⟩ := hO hphase hdef
    refine ⟨?_, hval.2.2.1 ve hv⟩
    rcases queueEntityStep_opaque_items_eq env view ph pre pe with
      hsame | ⟨mat2, bsk, bk, b, tk, -, -, -, heq⟩
    · exact ⟨it, by rw [hsame]; exact hit, hive⟩
    · by_cases hpe : pe = ve
      · subst hpe
        exact ⟨_, by rw [heq]; exact List.mem_cons_self _ _, rfl⟩
      · refine ⟨it, ?_, hive⟩
        rw [heq]
        refine List.mem_cons_of_mem _ (List.mem_filter.mpr ⟨hit, ?_⟩)
        rw [hive]
        exact decide_eq_true (fun h => hpe h.symm)

/-- Unfolding equation for one cons cell of the queue entity loop. -/
theorem queueEntitiesLoop_cons (env : QueueEnv) (view : ViewInfo)
    (ph : ViewPhases) (p : Entity × Entity) (rest : List (Entity × Entity)) :
    queueEntitiesLoop env view ph (p :: rest)
      = queueEntitiesLoop env view (queueEntityStep env view ph p) rest := rfl

/-- The queue entity loop preserves an established placement. -/
theorem queueEntitiesLoop_preserves_established (env : QueueEnv)
    (view : ViewInfo) (mat : PreparedMaterial) (ve : Entity) :
    ∀ (l : List (Entity × Entity)) (ph : ViewPhases),
      establishedFor mat ve ph
      → establishedFor mat ve (queueEntitiesLoop env view ph l) := by
  intro l
  induction l with
  | nil => intro ph h; exact h
  | cons p rest ih =>
    intro ph h
    rw [queueEntitiesLoop_cons]
    exact ih _ (queueEntityStep_preserves_established env view ph p mat ve h)

/-- Running the queue entity loop over a visible list containing a fully
resolvable drawable, starting from phases that do not yet reference it,
establishes its placement in the phase its material selects. -/
theorem queueEntitiesLoop_establishes (env : QueueEnv) (view : ViewInfo)
    (ve : Entity) (t : Tick) (pid : PipelineId) (maid : MatAssetId)
    (mi : RenderMeshQueueData) (mat : PreparedMaterial)
    (hc : assocLookup env.specialized_material_pipeline_cache
        (view.view_entity, ve) = some (t, pid))
    (h1 : assocLookup env.render_material_instances ve = some maid)
    (h2 : assocLookup env.render_mesh_instances ve = some mi)
    (h3 : assocLookup env.render_materials maid = some mat) :
    ∀ (l : List (Entity × Entity)) (ph : ViewPhases),
      (∃ re, (re, ve) ∈ l) →
      (∀ it ∈ ph.opaque_phase.items, it.entity.2 ≠ ve) →
      (∀ it ∈ ph.alpha_mask_phase.items, it.entity.2 ≠ ve) →
      establishedFor mat ve (queueEntitiesLoop env view ph l) := by
  intro l
  induction l with
  | nil =>
    intro ph hre _ _
    obtain ⟨re, hre⟩ := hre
    cases hre
  | cons p rest ih =>
    intro ph hre hop ham
    obtain ⟨re, hre⟩ := hre
    obtain ⟨pre, pe⟩ := p
    by_cases hpe : pe = ve
    · subst hpe
      rw [queueEntitiesLoop_cons]
      exact queueEntitiesLoop_preserves_established env view mat pe rest _
        (queueEntityStep_establishes env view ph pre pe t pid maid mi mat
          hc h1 h2 h3 hop ham)
    · rw [queueEntitiesLoop_cons]
      have habs := queueEntityStep_absence env view ph pre pe ve hpe hop ham
      have hmem : (re, ve) ∈ rest := by
        rcases List.mem_cons.mp hre with h | h
        · exfalso
          apply hpe
          injection h with ha hb
          exact hb.symm
        · exact h
      exact ih _ ⟨re, hmem⟩ habs.1 habs.2

/-- Entities never placed by any iteration stay absent from the opaque bins
across the whole loop when the hypothesis of the deferred-opaque claim
holds. -/
theorem queueEntitiesLoop_opaque_no_insert (env : QueueEnv) (view : ViewInfo)
    (ve : Entity)
    (hmat : ∀ mat, queue_resolved_material env ve = some mat →
        mat.properties.render_phase_type = RenderPhaseType.Opaque
        ∧ mat.properties.render_method = OpaqueRendererMethod.Deferred) :
    ∀ (l : List (Entity × Entity)) (ph : ViewPhases),
      ∀ it ∈ (queueEntitiesLoop env view ph l).opaque_phase.items,
        it.entity.2 = ve → it ∈ ph.opaque_phase.items := by
  intro l
  induction l with
  | nil => intro ph it hit _; exact hit
  | cons p rest ih =>
    intro ph it hit hve
    rw [queueEntitiesLoop_cons] at hit
    have hstep := ih (queueEntityStep env view ph p) it hit hve
    obtain ⟨pre, pe⟩ := p
    rcases queueEntityStep_opaque_items_eq env view ph pre pe with
      hsame | ⟨mat, bsk, bk, b, tk, hres, hph, hnd, heq⟩
    · rw [hsame] at hstep; exact hstep
    · rw [heq] at hstep
      rcases List.mem_cons.mp hstep with h | h
      · by_cases hpe : pe = ve
        · rw [hpe] at hres
          exact absurd (hmat mat hres).2 hnd
        · rw [h] at hve
          exact absurd hve hpe
      · exact List.mem_of_mem_filter h

/-- Across the loop, every entity marked validated in a binned phase was
either validated before or is one of the processed visible entities. -/
theorem queueEntitiesLoop_validated_sub (env : QueueEnv) (view : ViewInfo) :
    ∀ (l : List (Entity × Entity)) (ph : ViewPhases),
      (∀ x ∈ (queueEntitiesLoop env view ph l).opaque_phase.validated,
          x ∈ l.map Prod.snd ∨ x ∈ ph.opaque_phase.validated)
      ∧ (∀ x ∈ (queueEntitiesLoop env view ph l).alpha_mask_phase.validated,
          x ∈ l.map Prod.snd ∨ x ∈ ph.alpha_mask_phase.validated) := by
  intro l
  induction l with
  | nil => intro ph; exact ⟨fun x hx => Or.inr hx, fun x hx => Or.inr hx⟩
  | cons p rest ih =>
    intro ph
    obtain ⟨pre, pe⟩ := p
    have hstep := queueEntityStep_validated env view ph pre pe
    constructor
    · intro x hx
      rw [queueEntitiesLoop_cons] at hx
      rcases (ih (queueEntityStep env view ph (pre, pe))).1 x hx with h | h
      · exact Or.inl (List.mem_cons_of_mem _ h)
      · rcases hstep.1 x h with h2 | h2
        · exact Or.inl (by rw [h2]; exact List.mem_cons_self _ _)
        · exact Or.inr h2
    · intro x hx
      rw [queueEntitiesLoop_cons] at hx
      rcases (ih (queueEntityStep env view ph (pre, pe))).2 x hx with h | h
      · exact Or.inl (List.mem_cons_of_mem _ h)
      · rcases hstep.2.1 x h with h2 | h2
        · exact Or.inl (by rw [h2]; exact List.mem_cons_self _ _)
        · exact Or.inr h2

/-- C1: the render phase assigned by `PreparedMaterial::prepare_asset` is
exactly the spec's mapping table over (alpha mode, transmission flag); and a
drawable whose resolved material is classified `Opaque` with render method
`Deferred` is never inserted into the forward opaque phase by
`queue_material_meshes` — every opaque item referencing it after a view is
queued was already there before. -/
theorem c1_phase_classification_and_deferred_exclusion :
    (∀ (m : Material) (mid : MatAssetId) (envp : PrepareEnv)
        (st st2 : PrepareState) (pm : PreparedMaterial),
        PreparedMaterial.prepare_asset m mid envp st = (.ok pm, st2) →
        pm.properties.render_phase_type
          = spec_phase_classification m.alpha_mode
              m.reads_view_transmission_texture)
  ∧ (∀ (env : QueueEnv) (st : QueueState) (view : ViewInfo) (ve : Entity)
        (op2 op : BinnedPhase Opaque3dBatchSetKey),
        (∀ mat, queue_resolved_material env ve = some mat →
          mat.properties.render_phase_type = RenderPhaseType.Opaque
          ∧ mat.properties.render_method = OpaqueRendererMethod.Deferred) →
        assocLookup (queueViewStep env st view).opaque_phases
            view.retained_view_entity = some op2 →
        assocLookup st.opaque_phases view.retained_view_entity = some op →
        ∀ it ∈ op2.items, it.entity.2 = ve → it ∈ op.items) := by
  constructor
  · intro m mid envp st st2 pm h
    have hrt : key_contains
        (key_set MeshPipelineKey.NONE
          MeshPipelineKey.READS_VIEW_TRANSMISSION_TEXTURE
          m.reads_view_transmission_texture)
        MeshPipelineKey.READS_VIEW_TRANSMISSION_TEXTURE
        = m.reads_view_transmission_texture := by
      cases m.reads_view_transmission_texture <;> decide
    unfold PreparedMaterial.prepare_asset at h
    repeat' split at h
    any_goals
      (injection h with ha hb
       exact Except.noConfusion ha)
    all_goals
      (injection h with ha hb
       injection ha with hp
       rw [← hp]
       rw [hrt]
       cases m.reads_view_transmission_texture <;>
         simp_all [spec_phase_classification])
  · intro env st view ve op2 op hmat hop2 hop
    unfold queueViewStep at hop2
    rw [hop] at hop2
    cases h2 : assocLookup st.alpha_mask_phases view.retained_view_entity with
    | none =>
      rw [h2] at hop2
      have hop2b : assocLookup st.opaque_phases view.retained_view_entity
          = some op2 := hop2
      rw [hop] at hop2b
      injection hop2b with h3
      rw [← h3]
      intro it hit _
      exact hit
    | some am0 =>
      rw [h2] at hop2
      cases h3 : assocLookup st.transmissive view.retained_view_entity with
      | none =>
        rw [h3] at hop2
        have hop2b : assocLookup st.opaque_phases view.retained_view_entity
            = some op2 := hop2
        rw [hop] at hop2b
        injection hop2b with h5
        rw [← h5]
        intro it hit _
        exact hit
      | some tm0 =>
        rw [h3] at hop2
        cases h4 : assocLookup st.transparent view.retained_view_entity with
        | none =>
          rw [h4] at hop2
          have hop2b : assocLookup st.opaque_phases view.retained_view_entity
              = some op2 := hop2
          rw [hop] at hop2b
          injection hop2b with h5
          rw [← h5]
          intro it hit _
          exact hit
        | some tp0 =>
          rw [h4] at hop2
          have hop2b : assocLookup
              (assocInsert st.opaque_phases view.retained_view_entity
                ((queueEntitiesLoop env view ⟨op, am0, tm0, tp0⟩
                  view.visible).opaque_phase.sweep_old_entities))
              view.retained_view_entity = some op2 := hop2
          rw [assocLookup_insert_self] at hop2b
          injection hop2b with h5
          intro it hit hve
          rw [← h5] at hit
          have hit2 := List.mem_of_mem_filter hit
          exact queueEntitiesLoop_opaque_no_insert env view ve hmat
            view.visible ⟨op, am0, tm0, tp0⟩ it hit2 hve

/-- A prepared material classified `Opaque` whose render method is
`Deferred`: the combination `queue_material_meshes` excludes from the
forward opaque phase. -/
def deferredMatFix : PreparedMaterial :=
  let props := { preparedFix.properties with
    render_method := OpaqueRendererMethod.Deferred }
  { preparedFix with properties := props }

/-- A queue environment resolving entity 5 to the Deferred opaque material,
with a pipeline cache entry for it. -/
def queueEnvC1 : QueueEnv :=
  { render_materials := [(7, deferredMatFix)],
    render_mesh_instances := [(5, meshInstanceFix)],
    render_material_instances := [(5, 7)],
    mesh_allocator := [],
    specialized_material_pipeline_cache := [((0, 5), (Tick.mk 3, 11))],
    views := [viewFix] }

/-- All four phase maps active (and empty) for retained view 0. -/
def queueStateAll4 : QueueState :=
  { opaque_phases := [(0, ⟨[], []⟩)], alpha_mask_phases := [(0, ⟨[], []⟩)],
    transmissive := [(0, [])], transparent := [(0, [])] }

/-- Witness for C1 at concrete inputs: part one on a concrete prepare, part
two on the Deferred material environment, whose queued view leaves the
opaque phase empty. -/
theorem c1_witness :
    preparedFix.properties.render_phase_type
      = spec_phase_classification materialFix.alpha_mode
          materialFix.reads_view_transmission_texture
    ∧ (∀ it ∈ (({ items := [], validated := [] } :
          BinnedPhase Opaque3dBatchSetKey)).items,
        it.entity.2 = 5 → it ∈ (({ items := [], validated := [] } :
          BinnedPhase Opaque3dBatchSetKey)).items) :=
  ⟨c1_phase_classification_and_deferred_exclusion.1 materialFix 7 prepareEnvFix
      prepareStateFix
      (PreparedMaterial.prepare_asset materialFix 7 prepareEnvFix
        prepareStateFix).2 preparedFix rfl,
   c1_phase_classification_and_deferred_exclusion.2 queueEnvC1 queueStateAll4
      viewFix 5 ⟨[], []⟩ ⟨[], []⟩
      (by intro mat hm
          have hm2 : some deferredMatFix = some mat := hm
          injection hm2 with h3
          rw [← h3]
          exact ⟨rfl, rfl⟩)
      rfl rfl⟩

/-- When all four phase maps contain the view, `queueViewStep` runs the
entity loop and writes back the swept binned phases and the sorted lists. -/
theorem queueViewStep_all_some (env : QueueEnv) (st : QueueState)
    (view : ViewInfo) (op : BinnedPhase Opaque3dBatchSetKey)
    (am : BinnedPhase OpaqueNoLightmap3dBatchSetKey) (tm tp : List SortedItem)
    (hopq : assocLookup st.opaque_phases view.retained_view_entity = some op)
    (hamq : assocLookup st.alpha_mask_phases view.retained_view_entity = some am)
    (htmq : assocLookup st.transmissive view.retained_view_entity = some tm)
    (htpq : assocLookup st.transparent view.retained_view_entity = some tp) :
    queueViewStep env st view =
      { opaque_phases := assocInsert st.opaque_phases view.retained_view_entity
          ((queueEntitiesLoop env view ⟨op, am, tm, tp⟩
            view.visible).opaque_phase.sweep_old_entities),
        alpha_mask_phases := assocInsert st.alpha_mask_phases
          view.retained_view_entity
          ((queueEntitiesLoop env view ⟨op, am, tm, tp⟩
            view.visible).alpha_mask_phase.sweep_old_entities),
        transmissive := assocInsert st.transmissive view.retained_view_entity
          (queueEntitiesLoop env view ⟨op, am, tm, tp⟩ view.visible).transmissive,
        transparent := assocInsert st.transparent view.retained_view_entity
          (queueEntitiesLoop env view ⟨op, am, tm, tp⟩ view.visible).transparent }
    := by
  unfold queueViewStep
  rw [hopq, hamq, htmq, htpq]

/-- `List.contains` agrees with membership on entity lists. -/
theorem entity_list_contains_iff (l : List Entity) (a : Entity) :
    l.contains a = true ↔ a ∈ l := by
  simp [List.contains, List.elem_iff]

/-- `queueEnvC1`'s cache and visibility, but with the forward-opaque
material, so entity 5 is a perfectly binnable drawable. -/
def queueEnvC6 : QueueEnv := { queueEnvC1 with render_materials := [(7, preparedFix)] }

/-- Only the opaque phase map knows retained view 0; the other three phase
maps are empty. -/
def queueStateOpaqueOnly : QueueState :=
  { opaque_phases := [(0, ⟨[], []⟩)], alpha_mask_phases := [],
    transmissive := [], transparent := [] }

/-- C6 counterexample: a view whose retained id is present in the opaque
phase map (so "at least one phase is active") while the other three maps
miss it.  Its visible entity 5 has a cache entry, full upstream data and an
opaque non-Deferred material, yet `queue_material_meshes` leaves the state
completely unchanged: the view is skipped unless ALL FOUR phase maps
contain it, contradicting the spec's "at least one of the four". -/
theorem c6_counterexample :
    queue_material_meshes queueEnvC6 queueStateOpaqueOnly = queueStateOpaqueOnly
    ∧ assocLookup queueStateOpaqueOnly.opaque_phases viewFix.retained_view_entity
        = some { items := [], validated := [] }
    ∧ assocLookup queueEnvC6.specialized_material_pipeline_cache
        (viewFix.view_entity, 5) = some (Tick.mk 3, 11)
    ∧ (9, 5) ∈ viewFix.visible
    ∧ viewFix ∈ queueEnvC6.views
    ∧ queue_resolved_material queueEnvC6 5 = some preparedFix
    ∧ preparedFix.properties.render_phase_type = RenderPhaseType.Opaque
    ∧ preparedFix.properties.render_method ≠ OpaqueRendererMethod.Deferred :=
  ⟨rfl, rfl, rfl, by decide, List.mem_singleton_self viewFix, rfl, rfl, by decide⟩

/-- C6 (amended): `queue_material_meshes` processes a view only when ALL
FOUR phase maps contain its retained view id — if any of the four misses it
the whole view is skipped with the state unchanged; and when all four are
present, a visible drawable with a pipeline-cache entry and full upstream
data, not yet referenced by the binned phases, ends up in exactly the phase
its material's `render_phase_type` selects (Deferred opaque excepted). -/
theorem c6_amended_all_four_phases :
    (∀ (env : QueueEnv) (st : QueueState) (view : ViewInfo),
        (assocLookup st.opaque_phases view.retained_view_entity = none
          ∨ assocLookup st.alpha_mask_phases view.retained_view_entity = none
          ∨ assocLookup st.transmissive view.retained_view_entity = none
          ∨ assocLookup st.transparent view.retained_view_entity = none) →
        queueViewStep env st view = st)
  ∧ (∀ (env : QueueEnv) (st : QueueState) (view : ViewInfo) (re ve : Entity)
        (t : Tick) (pid : PipelineId) (maid : MatAssetId)
        (mi : RenderMeshQueueData) (mat : PreparedMaterial)
        (op : BinnedPhase Opaque3dBatchSetKey)
        (am : BinnedPhase OpaqueNoLightmap3dBatchSetKey)
        (tm tp : List SortedItem),
        assocLookup st.opaque_phases view.retained_view_entity = some op →
        assocLookup st.alpha_mask_phases view.retained_view_entity = some am →
        assocLookup st.transmissive view.retained_view_entity = some tm →
        assocLookup st.transparent view.retained_view_entity = some tp →
        assocLookup env.specialized_material_pipeline_cache
            (view.view_entity, ve) = some (t, pid) →
        assocLookup env.render_material_instances ve = some maid →
        assocLookup env.render_mesh_instances ve = some mi →
        assocLookup env.render_materials maid = some mat →
        (re, ve) ∈ view.visible →
        (∀ it ∈ op.items, it.entity.2 ≠ ve) →
        (∀ it ∈ am.items, it.entity.2 ≠ ve) →
        (mat.properties.render_phase_type = RenderPhaseType.Transparent →
          ∀ tp2, assocLookup (queueViewStep env st view).transparent
              view.retained_view_entity = some tp2 →
            ∃ it ∈ tp2, it.entity.2 = ve)
        ∧ (mat.properties.render_phase_type = RenderPhaseType.Transmissive →
          ∀ tm2, assocLookup (queueViewStep env st view).transmissive
              view.retained_view_entity = some tm2 →
            ∃ it ∈ tm2, it.entity.2 = ve)
        ∧ (mat.properties.render_phase_type = RenderPhaseType.AlphaMask →
          ∀ am2, assocLookup (queueViewStep env st view).alpha_mask_phases
              view.retained_view_entity = some am2 →
            ∃ it ∈ am2.items, it.entity.2 = ve)
        ∧ (mat.properties.render_phase_type = RenderPhaseType.Opaque →
          mat.properties.render_method ≠ OpaqueRendererMethod.Deferred →
          ∀ op2, assocLookup (queueViewStep env st view).opaque_phases
              view.retained_view_entity = some op2 →
            ∃ it ∈ op2.items, it.entity.2 = ve)) := by
  constructor
  · intro env st view h
    unfold queueViewStep
    cases h1 : assocLookup st.opaque_phases view.retained_view_entity <;>
    cases h2 : assocLookup st.alpha_mask_phases view.retained_view_entity <;>
    cases h3 : assocLookup st.transmissive view.retained_view_entity <;>
    cases h4 : assocLookup st.transparent view.retained_view_entity <;>
      rcases h with h | h | h | h <;>
      first
        | rfl
        | (rw [h1] at h; exact Option.noConfusion h)
        | (rw [h2] at h; exact Option.noConfusion h)
        | (rw [h3] at h; exact Option.noConfusion h)
        | (rw [h4] at h; exact Option.noConfusion h)
  · intro env st view re ve t pid maid mi mat op am tm tp
      hopq hamq htmq htpq hc h1 h2 h3 hvis hopit hamit
    have hstep := queueViewStep_all_some env st view op am tm tp hopq hamq htmq htpq
    have hest := queueEntitiesLoop_establishes env view ve t pid maid mi mat
      hc h1 h2 h3 view.visible ⟨op, am, tm, tp⟩ ⟨re, hvis⟩ hopit hamit
    obtain ⟨hT, hM, hA, hO⟩ := hest
    refine ⟨?_, ?_, ?_, ?_⟩
    · intro hph tp2 htp2
      rw [hstep] at htp2
      have htp2b : assocLookup (assocInsert st.transparent
          view.retained_view_entity
          (queueEntitiesLoop env view ⟨op, am, tm, tp⟩ view.visible).transparent)
          view.retained_view_entity = some tp2 := htp2
      rw [assocLookup_insert_self] at htp2b
      injection htp2b with h5
      rw [← h5]
      exact hT hph
    · intro hph tm2 htm2
      rw [hstep] at htm2
      have htm2b : assocLookup (assocInsert st.transmissive
          view.retained_view_entity
          (queueEntitiesLoop env view ⟨op, am, tm, tp⟩ view.visible).transmissive)
          view.retained_view_entity = some tm2 := htm2
      rw [assocLookup_insert_self] at htm2b
      injection htm2b with h5
      rw [← h5]
      exact hM hph
    · intro hph am2 ham2
      rw [hstep] at ham2
      have ham2b : assocLookup (assocInsert st.alpha_mask_phases
          view.retained_view_entity
          ((queueEntitiesLoop env view ⟨op, am, tm, tp⟩
            view.visible).alpha_mask_phase.sweep_old_entities))
          view.retained_view_entity = some am2 := ham2
      rw [assocLookup_insert_self] at ham2b
      injection ham2b with h5
      rw [← h5]
      obtain ⟨⟨it, hit, hive⟩, hval⟩ := hA hph
      refine ⟨it, ?_, hive⟩
      apply List.mem_filter.mpr
      refine ⟨hit, ?_⟩
      rw [hive]
      exact (entity_list_contains_iff _ ve).mpr hval
    · intro hph hdef op2 hop2
      rw [hstep] at hop2
      have hop2b : assocLookup (assocInsert st.opaque_phases
          view.retained_view_entity
          ((queueEntitiesLoop env view ⟨op, am, tm, tp⟩
            view.visible).opaque_phase.sweep_old_entities))
          view.retained_view_entity = some op2 := hop2
      rw [assocLookup_insert_self] at hop2b
      injection hop2b with h5
      rw [← h5]
      obtain ⟨⟨it, hit, hive⟩, hval⟩ := hO hph hdef
      refine ⟨it, ?_, hive⟩
      apply List.mem_filter.mpr
      refine ⟨hit, ?_⟩
      rw [hive]
      exact (entity_list_contains_iff _ ve).mpr hval

/-- `queueEnvC1` with the premultiplied (transparent) material. -/
def queueEnvC6p : QueueEnv := { queueEnvC1 with render_materials := [(7, premultFix)] }

/-- The sorted item the C6 witness run produces for entity 5. -/
def c6ItemFix : SortedItem :=
  { entity := (9, 5), draw_function := 0, pipeline := 11,
    distance := 0, batch_range := (0, 1), indexed := false }

/-- Witness for C6 at concrete inputs: with all four phases active, queuing
the single view puts transparent entity 5 into the transparent list. -/
theorem c6_witness :
    ∃ it ∈ [c6ItemFix], it.entity.2 = 5 :=
  ((c6_amended_all_four_phases.2 queueEnvC6p queueStateAll4 viewFix 9 5
      (Tick.mk 3) 11 7 meshInstanceFix premultFix ⟨[], []⟩ ⟨[], []⟩ [] []
      rfl rfl rfl rfl rfl rfl rfl rfl (by decide)
      (by intro it hit; cases hit) (by intro it hit; cases hit)).1) rfl _ rfl

/-- C8: end-of-view sweep correctness for the binned phases.  If a view's
opaque and alpha-mask phases start the frame with empty re-validation marks
(as at the start of a frame), then after the view is queued no item for a
main entity that was not among the view's visible drawables survives in
either binned phase: stale entities are swept out. -/
theorem c8_sweep_correctness (env : QueueEnv) (st : QueueState)
    (view : ViewInfo) (ve : Entity)
    (op : BinnedPhase Opaque3dBatchSetKey)
    (am : BinnedPhase OpaqueNoLightmap3dBatchSetKey)
    (tm tp : List SortedItem)
    (hopq : assocLookup st.opaque_phases view.retained_view_entity = some op)
    (hamq : assocLookup st.alpha_mask_phases view.retained_view_entity = some am)
    (htmq : assocLookup st.transmissive view.retained_view_entity = some tm)
    (htpq : assocLookup st.transparent view.retained_view_entity = some tp)
    (hval1 : op.validated = []) (hval2 : am.validated = [])
    (hvis : ∀ p ∈ view.visible, p.2 ≠ ve) :
    (∀ op2, assocLookup (queueViewStep env st view).opaque_phases
        view.retained_view_entity = some op2 →
      ∀ it ∈ op2.items, it.entity.2 ≠ ve)
    ∧ (∀ am2, assocLookup (queueViewStep env st view).alpha_mask_phases
        view.retained_view_entity = some am2 →
      ∀ it ∈ am2.items, it.entity.2 ≠ ve) := by
  have hstep := queueViewStep_all_some env st view op am tm tp hopq hamq htmq htpq
  have hsub := queueEntitiesLoop_validated_sub env view view.visible ⟨op, am, tm, tp⟩
  constructor
  · intro op2 hop2
    rw [hstep] at hop2
    have hop2b : assocLookup (assocInsert st.opaque_phases
        view.retained_view_entity
        ((queueEntitiesLoop env view ⟨op, am, tm, tp⟩
          view.visible).opaque_phase.sweep_old_entities))
        view.retained_view_entity = some op2 := hop2
    rw [assocLookup_insert_self] at hop2b
    injection hop2b with h5
    intro it hit hive
    rw [← h5] at hit
    have hmem := List.mem_filter.mp hit
    have hmem2 : it.entity.2 ∈ (queueEntitiesLoop env view ⟨op, am, tm, tp⟩
        view.visible).opaque_phase.validated :=
      (entity_list_contains_iff _ _).mp hmem.2
    rcases hsub.1 _ hmem2 with h | h
    · rw [hive] at h
      obtain ⟨q, hq, hq2⟩ := List.mem_map.mp h
      exact hvis q hq hq2
    · rw [hval1] at h
      cases h
  · intro am2 ham2
    rw [hstep] at ham2
    have ham2b : assocLookup (assocInsert st.alpha_mask_phases
        view.retained_view_entity
        ((queueEntitiesLoop env view ⟨op, am, tm, tp⟩
          view.visible).alpha_mask_phase.sweep_old_entities))
        view.retained_view_entity = some am2 := ham2
    rw [assocLookup_insert_self] at ham2b
    injection ham2b with h5
    intro it hit hive
    rw [← h5] at hit
    have hmem := List.mem_filter.mp hit
    have hmem2 : it.entity.2 ∈ (queueEntitiesLoop env view ⟨op, am, tm, tp⟩
        view.visible).alpha_mask_phase.validated :=
      (entity_list_contains_iff _ _).mp hmem.2
    rcases hsub.2 _ hmem2 with h | h
    · rw [hive] at h
      obtain ⟨q, hq, hq2⟩ := List.mem_map.mp h
      exact hvis q hq hq2
    · rw [hval2] at h
      cases h

/-- The batch-set key of the stale item below. -/
def staleKeyFix : Opaque3dBatchSetKey :=
  { pipeline := 11, draw_function := 0, material_bind_group_index := some 0,
    vertex_slab := 0, index_slab := none, lightmap_slab := none }

/-- A stale opaque item for main entity 8, binned in an earlier frame. -/
def staleItemFix : BinnedItem Opaque3dBatchSetKey :=
  { batch_set_key := staleKeyFix, bin_key := 3, entity := (10, 8),
    change_tick := Tick.mk 2, batchable := true }

/-- Phase maps for retained view 0 still holding the stale item. -/
def queueStateC8 : QueueState :=
  { opaque_phases := [(0, ⟨[staleItemFix], []⟩)],
    alpha_mask_phases := [(0, ⟨[], []⟩)],
    transmissive := [(0, [])], transparent := [(0, [])] }

/-- Witness for C8 at concrete inputs: entity 8's stale opaque item is swept
when the view (which no longer sees entity 8) is queued. -/
theorem c8_witness :
    assocLookup (queueViewStep queueEnvC6p queueStateC8 viewFix).opaque_phases
        viewFix.retained_view_entity = some { items := [], validated := [] }
    ∧ (∀ it ∈ (({ items := [], validated := [] } :
        BinnedPhase Opaque3dBatchSetKey)).items, it.entity.2 ≠ 8) :=
  ⟨by rfl,
   (c8_sweep_correctness queueEnvC6p queueStateC8 viewFix 8
      ⟨[staleItemFix], []⟩ ⟨[], []⟩ [] []
      rfl rfl rfl rfl rfl rfl (by decide)).1 ⟨[], []⟩ (by rfl)⟩

end Bevy
